import Mathlib

/-!
Verification of the HFT-Lite cross-venue arbitrage engine.

Shallow embedding of the core components described by the specification:
the capital reservation ledger (`src/hft_engine/core/account_state.py`),
the fee model (`src/hft_engine/core/fee_model.py`), the arbitrage detector
(`src/hft_engine/core/arbitrage.py`), the staleness-gated opportunity
handler (`src/hft_engine/monitor/arbitrage_monitor.py`), the bounded event
queue (`src/core/event_bus.py`) and the two-legged order executor
(`src/hft_engine/core/executor.py`).

Monetary values (Python `Decimal`) are embedded as exact rationals `ℚ`.
Python methods that mutate `self` become functions from state to state.
-/

set_option maxHeartbeats 1000000

namespace HFTLite

/-! ### Capital ledger — `src/hft_engine/core/account_state.py` -/

/-- `Position` dataclass: one position in a single contract. -/
structure Position where
  symbol : String
  side : String
  quantity : ℕ
  avg_cost : ℚ
  deriving DecidableEq, Repr

/-- `Position.total_cost` property: `avg_cost * quantity`. -/
def Position.total_cost (p : Position) : ℚ :=
  p.avg_cost * p.quantity

/-- `AccountState` dataclass: cash and positions for one exchange.
Positions are a dict keyed by the string `symbol + "_" + side`,
embedded as an association list. -/
structure AccountState where
  cash_available : ℚ
  cash_reserved : ℚ
  positions : List (String × Position)
  deriving DecidableEq, Repr

namespace AccountState

/-- `cash_total` property: `cash_available + cash_reserved`. -/
def cash_total (s : AccountState) : ℚ :=
  s.cash_available + s.cash_reserved

/-- `can_afford`: `cash_available >= amount`. -/
def can_afford (s : AccountState) (amount : ℚ) : Bool :=
  amount ≤ s.cash_available

/-- `reserve`: move `amount` from available to reserved, failing (and
leaving the state unchanged) when `can_afford` is false.  The Python
method mutates `self` and returns a `bool`; here the new state is
returned alongside the flag. -/
def reserve (s : AccountState) (amount : ℚ) : Bool × AccountState :=
  if s.can_afford amount then
    (true, { s with cash_available := s.cash_available - amount,
                    cash_reserved := s.cash_reserved + amount })
  else
    (false, s)

/-- `release`: return reserved cash to available.  The source performs
no check that `amount` does not exceed `cash_reserved`. -/
def release (s : AccountState) (amount : ℚ) : AccountState :=
  { s with cash_reserved := s.cash_reserved - amount,
           cash_available := s.cash_available + amount }

/-- `confirm_spend`: debit reserved cash after a fill.  The source
performs no check that `amount` does not exceed `cash_reserved`. -/
def confirm_spend (s : AccountState) (amount : ℚ) : AccountState :=
  { s with cash_reserved := s.cash_reserved - amount }

/-- The dict key `f"{symbol}_{side}"`. -/
def posKey (symbol side : String) : String :=
  symbol ++ "_" ++ side

/-- Replace the value stored under `k` in an association list. -/
def updateAssoc (k : String) (v : Position) :
    List (String × Position) → List (String × Position)
  | [] => []
  | (k2, v2) :: rest =>
    if k2 = k then (k2, v) :: rest else (k2, v2) :: updateAssoc k v rest

/-- `add_position`: fold a new fill into the position map, recomputing the
weighted-average cost.  Division is exact on `ℚ` where the source divides
`Decimal`s; the claims checked here never inspect `avg_cost`.  (In Python a
zero `total_qty` or `quantity` would raise; `ℚ` division by zero yields 0.) -/
def add_position (s : AccountState) (symbol side : String) (quantity : ℕ)
    (cost : ℚ) : AccountState :=
  let key := posKey symbol side
  match s.positions.lookup key with
  | some pos =>
    let total_qty := pos.quantity + quantity
    let total_cost := pos.total_cost + cost
    let newPos : Position :=
      { pos with quantity := total_qty, avg_cost := total_cost / total_qty }
    { s with positions := updateAssoc key newPos s.positions }
  | none =>
    { s with positions :=
        (key, { symbol := symbol, side := side, quantity := quantity,
                avg_cost := cost / quantity }) :: s.positions }

/-- `get_position_quantity`: quantity held at `(symbol, side)`, 0 if absent. -/
def get_position_quantity (s : AccountState) (symbol side : String) : ℕ :=
  match s.positions.lookup (posKey symbol side) with
  | some pos => pos.quantity
  | none => 0

end AccountState

/-- One call to an `AccountState` method, for reasoning about sequences of
ledger operations. -/
inductive AccountOp where
  | reserve (amount : ℚ)
  | release (amount : ℚ)
  | confirm_spend (amount : ℚ)
  | add_position (symbol side : String) (quantity : ℕ) (cost : ℚ)
  deriving DecidableEq, Repr

/-- Effect of one ledger operation on the state (a failed `reserve`
leaves the state unchanged, as in the source). -/
def applyOp (s : AccountState) : AccountOp → AccountState
  | .reserve a => (s.reserve a).2
  | .release a => s.release a
  | .confirm_spend a => s.confirm_spend a
  | .add_position sym side q c => s.add_position sym side q c

/-- Effect of a sequence of ledger operations. -/
def applyOps (s : AccountState) (ops : List AccountOp) : AccountState :=
  ops.foldl applyOp s

/-- Whether an operation is a `reserve` or a `release`. -/
def AccountOp.isReserveOrRelease : AccountOp → Bool
  | .reserve _ => true
  | .release _ => true
  | _ => false

lemma cash_total_reserve (s : AccountState) (a : ℚ) :
    ((s.reserve a).2).cash_total = s.cash_total := by
  unfold AccountState.reserve AccountState.cash_total
  split
  · dsimp only
    ring
  · rfl

lemma cash_total_release (s : AccountState) (a : ℚ) :
    (s.release a).cash_total = s.cash_total := by
  unfold AccountState.release AccountState.cash_total
  dsimp only
  ring

lemma cash_total_confirm_spend (s : AccountState) (a : ℚ) :
    (s.confirm_spend a).cash_total = s.cash_total - a := by
  unfold AccountState.confirm_spend AccountState.cash_total
  dsimp only
  ring

lemma cash_total_add_position (s : AccountState) (sym side : String)
    (q : ℕ) (c : ℚ) :
    (s.add_position sym side q c).cash_total = s.cash_total := by
  unfold AccountState.add_position AccountState.cash_total
  dsimp only
  split <;> rfl

/-- **C3.** Ledger sum invariant.  (1) Any sequence of `reserve`/`release`
calls (no `confirm_spend`) leaves `cash_available + cash_reserved`
unchanged.  (2) A single `reserve`, `release` or `add_position` preserves
the sum, while `confirm_spend amount` lowers it by exactly `amount`
(strictly, when `amount` is positive). -/
theorem ledger_sum_invariant :
    (∀ (s : AccountState) (ops : List AccountOp),
        ops.all AccountOp.isReserveOrRelease = true →
        (applyOps s ops).cash_total = s.cash_total) ∧
    (∀ (s : AccountState) (op : AccountOp),
        (op.isReserveOrRelease = true → (applyOp s op).cash_total = s.cash_total) ∧
        (∀ sym side q c, op = .add_position sym side q c →
            (applyOp s op).cash_total = s.cash_total) ∧
        (∀ a, op = .confirm_spend a →
            (applyOp s op).cash_total = s.cash_total - a ∧
            (0 < a → (applyOp s op).cash_total < s.cash_total))) := by
  constructor
  · intro s ops
    induction ops generalizing s with
    | nil => intro _; rfl
    | cons op rest ih =>
      intro h
      simp only [List.all_cons, Bool.and_eq_true] at h
      have hstep : (applyOp s op).cash_total = s.cash_total := by
        cases op with
        | reserve a => simpa [applyOp] using cash_total_reserve s a
        | release a => simpa [applyOp] using cash_total_release s a
        | confirm_spend a => simp [AccountOp.isReserveOrRelease] at h
        | add_position sym side q c => simp [AccountOp.isReserveOrRelease] at h
      calc (applyOps s (op :: rest)).cash_total
          = (applyOps (applyOp s op) rest).cash_total := rfl
        _ = (applyOp s op).cash_total := ih _ h.2
        _ = s.cash_total := hstep
  · intro s op
    refine ⟨?_, ?_, ?_⟩
    · intro h
      cases op with
      | reserve a => simpa [applyOp] using cash_total_reserve s a
      | release a => simpa [applyOp] using cash_total_release s a
      | confirm_spend a => simp [AccountOp.isReserveOrRelease] at h
      | add_position sym side q c => simp [AccountOp.isReserveOrRelease] at h
    · intro sym side q c hop
      subst hop
      simpa [applyOp] using cash_total_add_position s sym side q c
    · intro a hop
      subst hop
      refine ⟨by simpa [applyOp] using cash_total_confirm_spend s a, ?_⟩
      intro ha
      have := cash_total_confirm_spend s a
      simp only [applyOp]
      rw [this]
      linarith

/-- Witness for C3: a concrete `reserve`/`release` sequence on a concrete
account preserves the cash sum. -/
theorem ledger_sum_invariant_witness :
    (applyOps ⟨10, 5, []⟩ [AccountOp.reserve 3, AccountOp.release 2]).cash_total
      = AccountState.cash_total ⟨10, 5, []⟩ :=
  ledger_sum_invariant.1 ⟨10, 5, []⟩ [AccountOp.reserve 3, AccountOp.release 2]
    (by decide)

/-- **C4, counterexample.**  The claim "every operation preserves
`cash_available ≥ 0 ∧ cash_reserved ≥ 0`" fails on the code: from the
all-zero account (both fields non-negative), `release 1` (a non-negative
amount) drives `cash_reserved` to `-1`, because `release` subtracts
without any check. -/
theorem release_unchecked_counterexample :
    (0 : ℚ) ≤ (⟨0, 0, []⟩ : AccountState).cash_available ∧
    (0 : ℚ) ≤ (⟨0, 0, []⟩ : AccountState).cash_reserved ∧
    (0 : ℚ) ≤ 1 ∧
    ((⟨0, 0, []⟩ : AccountState).release 1).cash_reserved < 0 := by
  refine ⟨le_refl 0, le_refl 0, by norm_num, ?_⟩
  simp [AccountState.release]

/-- **C4, amended.**  Non-negativity of both cash fields is preserved by
`reserve` (for any non-negative amount) and by `add_position`
unconditionally, but by `release` and `confirm_spend` only under the
additional hypothesis `amount ≤ cash_reserved` — the code performs no
such check itself. -/
theorem nonneg_preserved_amended (s : AccountState) (a : ℚ)
    (h1 : 0 ≤ s.cash_available) (h2 : 0 ≤ s.cash_reserved) (ha : 0 ≤ a) :
    (0 ≤ ((s.reserve a).2).cash_available ∧ 0 ≤ ((s.reserve a).2).cash_reserved) ∧
    (∀ sym side q c,
        0 ≤ (s.add_position sym side q c).cash_available ∧
        0 ≤ (s.add_position sym side q c).cash_reserved) ∧
    (a ≤ s.cash_reserved →
        0 ≤ (s.release a).cash_available ∧ 0 ≤ (s.release a).cash_reserved) ∧
    (a ≤ s.cash_reserved →
        0 ≤ (s.confirm_spend a).cash_available ∧
        0 ≤ (s.confirm_spend a).cash_reserved) := by
  refine ⟨?_, ?_, ?_, ?_⟩
  · unfold AccountState.reserve AccountState.can_afford
    split
    · rename_i h
      simp only [decide_eq_true_eq] at h
      constructor
      · simp; linarith
      · simp; linarith
    · exact ⟨h1, h2⟩
  · intro sym side q c
    unfold AccountState.add_position
    dsimp only
    split <;> exact ⟨h1, h2⟩
  · intro hle
    unfold AccountState.release
    constructor
    · simp; linarith
    · simp; linarith
  · intro hle
    unfold AccountState.confirm_spend
    exact ⟨h1, by simp; linarith⟩

/-- Witness for C4's amended theorem at a concrete account and amount. -/
theorem nonneg_preserved_amended_witness :
    (0 ≤ (((⟨2, 1, []⟩ : AccountState).reserve 1).2).cash_available ∧
      0 ≤ (((⟨2, 1, []⟩ : AccountState).reserve 1).2).cash_reserved) ∧
    (∀ sym side q c,
        0 ≤ ((⟨2, 1, []⟩ : AccountState).add_position sym side q c).cash_available ∧
        0 ≤ ((⟨2, 1, []⟩ : AccountState).add_position sym side q c).cash_reserved) ∧
    ((1 : ℚ) ≤ (⟨2, 1, []⟩ : AccountState).cash_reserved →
        0 ≤ ((⟨2, 1, []⟩ : AccountState).release 1).cash_available ∧
        0 ≤ ((⟨2, 1, []⟩ : AccountState).release 1).cash_reserved) ∧
    ((1 : ℚ) ≤ (⟨2, 1, []⟩ : AccountState).cash_reserved →
        0 ≤ ((⟨2, 1, []⟩ : AccountState).confirm_spend 1).cash_available ∧
        0 ≤ ((⟨2, 1, []⟩ : AccountState).confirm_spend 1).cash_reserved) :=
  nonneg_preserved_amended ⟨2, 1, []⟩ 1 (by norm_num) (by norm_num) (by norm_num)

/-! ### Fee model — `src/hft_engine/core/fee_model.py` -/

/-- `Decimal.quantize(Decimal("0.01"), rounding=ROUND_UP)` for the
non-negative amounts the fee formulas produce: round up to the next cent.
(`ROUND_UP` rounds away from zero; every fee input here is ≥ 0.) -/
def ceil_cents (x : ℚ) : ℚ :=
  (⌈x * 100⌉ : ℚ) / 100

/-- `KalshiFeeSchedule`: taker fee `round_up(rate * C * P * (1-P))`. -/
structure KalshiFeeSchedule where
  rate : ℚ
  deriving DecidableEq, Repr

/-- `KalshiFeeSchedule.taker_fee`. -/
def KalshiFeeSchedule.taker_fee (f : KalshiFeeSchedule) (price : ℚ)
    (quantity : ℕ) : ℚ :=
  ceil_cents (f.rate * quantity * price * (1 - price))

/-- `KalshiFeeSchedule.maker_fee` (same formula, per the source comment). -/
def KalshiFeeSchedule.maker_fee (f : KalshiFeeSchedule) (price : ℚ)
    (quantity : ℕ) : ℚ :=
  f.taker_fee price quantity

/-- Default instance `KALSHI_FEES` (rate 0.07). -/
def KALSHI_FEES : KalshiFeeSchedule := ⟨7 / 100⟩

/-- `IBKRFeeSchedule`: flat per-contract fee. -/
structure IBKRFeeSchedule where
  forecastex_fee : ℚ
  deriving DecidableEq, Repr

/-- `IBKRFeeSchedule.fee`: `forecastex_fee * contracts`. -/
def IBKRFeeSchedule.fee (f : IBKRFeeSchedule) (contracts : ℕ) : ℚ :=
  f.forecastex_fee * contracts

/-- Default instance `IBKR_FEES` (0.01 per contract). -/
def IBKR_FEES : IBKRFeeSchedule := ⟨1 / 100⟩

lemma ceil_cents_eval (x : ℚ) (n : ℤ) (h1 : (n : ℚ) - 1 < x * 100)
    (h2 : x * 100 ≤ (n : ℚ)) : ceil_cents x = (n : ℚ) / 100 := by
  unfold ceil_cents
  rw [Int.ceil_eq_iff.mpr ⟨h1, h2⟩]

lemma ceil_cents_mono {x y : ℚ} (h : x ≤ y) : ceil_cents x ≤ ceil_cents y := by
  unfold ceil_cents
  have h2 : (⌈x * 100⌉ : ℤ) ≤ ⌈y * 100⌉ :=
    Int.ceil_mono (mul_le_mul_of_nonneg_right h (by norm_num))
  have h3 : ((⌈x * 100⌉ : ℤ) : ℚ) ≤ ((⌈y * 100⌉ : ℤ) : ℚ) := by exact_mod_cast h2
  linarith

/-- **C8.**  The Kalshi taker fee is `rate * quantity * price * (1-price)`
rounded up to the next cent, and — for prices given in whole cents
`c ∈ [1, 99]` and quantities `q ≥ 1` — it is monotone in the quantity and
maximal at price 0.50. -/
theorem kalshi_taker_fee_monotone (c q : ℕ) (hc1 : 1 ≤ c) (hc2 : c ≤ 99)
    (hq : 1 ≤ q) :
    KALSHI_FEES.taker_fee ((c : ℚ) / 100) q
        = ceil_cents ((7 / 100) * q * ((c : ℚ) / 100) * (1 - (c : ℚ) / 100)) ∧
    KALSHI_FEES.taker_fee ((c : ℚ) / 100) q
        ≤ KALSHI_FEES.taker_fee ((c : ℚ) / 100) (q + 1) ∧
    KALSHI_FEES.taker_fee ((c : ℚ) / 100) q
        ≤ KALSHI_FEES.taker_fee (1 / 2) q := by
  have hp0 : (0 : ℚ) ≤ (c : ℚ) / 100 := by positivity
  have hc99 : (c : ℚ) ≤ 99 := by exact_mod_cast hc2
  have h1mp : (0 : ℚ) ≤ 1 - (c : ℚ) / 100 := by linarith
  have hq0 : (0 : ℚ) ≤ (q : ℚ) := Nat.cast_nonneg q
  refine ⟨rfl, ?_, ?_⟩
  · unfold KalshiFeeSchedule.taker_fee KALSHI_FEES
    apply ceil_cents_mono
    push_cast
    nlinarith [mul_nonneg hp0 h1mp]
  · unfold KalshiFeeSchedule.taker_fee KALSHI_FEES
    apply ceil_cents_mono
    nlinarith [mul_nonneg hq0 (sq_nonneg ((c : ℚ) / 100 - 1 / 2))]

/-- Witness for C8 at price 40 cents and quantity 1. -/
theorem kalshi_taker_fee_monotone_witness :
    KALSHI_FEES.taker_fee (((40 : ℕ) : ℚ) / 100) 1
        = ceil_cents ((7 / 100) * (1 : ℕ) * (((40 : ℕ) : ℚ) / 100) *
            (1 - ((40 : ℕ) : ℚ) / 100)) ∧
    KALSHI_FEES.taker_fee (((40 : ℕ) : ℚ) / 100) 1
        ≤ KALSHI_FEES.taker_fee (((40 : ℕ) : ℚ) / 100) (1 + 1) ∧
    KALSHI_FEES.taker_fee (((40 : ℕ) : ℚ) / 100) 1
        ≤ KALSHI_FEES.taker_fee (1 / 2) 1 :=
  kalshi_taker_fee_monotone 40 1 (by norm_num) (by norm_num) (by norm_num)

/-! ### Normalized ticks and the arbitrage detector —
`src/hft_engine/core/normalized_tick.py`, `src/hft_engine/core/arbitrage.py` -/

/-- `Exchange` enum. -/
inductive Exchange where
  | KALSHI
  | IBKR
  deriving DecidableEq, Repr

/-- `NormalizedTick` dataclass (timestamps in nanoseconds). -/
structure NormalizedTick where
  exchange : Exchange
  symbol : String
  timestamp_exchange : ℤ
  timestamp_local : ℤ
  yes_ask : ℚ
  no_ask : ℚ
  yes_ask_size : ℕ
  no_ask_size : ℕ
  last : Option ℚ
  last_size : Option ℕ
  deriving DecidableEq, Repr

/-- `Side` enum of `arbitrage.py`: which pairing an opportunity uses. -/
inductive Side where
  | BUY_YES_KALSHI_NO_IBKR
  | BUY_NO_KALSHI_YES_IBKR
  deriving DecidableEq, Repr

/-- `ArbitrageOpportunity` dataclass. -/
structure ArbitrageOpportunity where
  symbol : String
  side : Side
  kalshi_side : String
  kalshi_price : ℚ
  ibkr_side : String
  ibkr_price : ℚ
  total_cost : ℚ
  gross_profit : ℚ
  kalshi_fee : ℚ
  ibkr_fee : ℚ
  total_fees : ℚ
  slippage_buffer : ℚ
  net_profit : ℚ
  timestamp_ns : ℤ
  quantity : ℕ
  deriving DecidableEq, Repr

/-- `ArbitrageDetector` construction parameters. -/
structure ArbitrageDetector where
  kalshi_fees : KalshiFeeSchedule
  ibkr_fees : IBKRFeeSchedule
  slippage_buffer : ℚ
  min_profit : ℚ
  deriving DecidableEq, Repr

/-- `ArbitrageDetector._check_opportunity`: evaluate one pairing, rejecting
on parity (`price sum ≥ 1.00`) and on `net_profit < min_profit`. -/
def ArbitrageDetector.check_opportunity (d : ArbitrageDetector)
    (kalshi_price : ℚ) (kalshi_side : String) (ibkr_price : ℚ)
    (ibkr_side : String) (side : Side) (symbol : String) (timestamp : ℤ)
    (quantity : ℕ) : Option ArbitrageOpportunity :=
  let total_cost := (kalshi_price + ibkr_price) * quantity
  if (1 : ℚ) ≤ kalshi_price + ibkr_price then
    none
  else
    let gross_profit := (1 - kalshi_price - ibkr_price) * quantity
    let kalshi_fee := d.kalshi_fees.taker_fee kalshi_price quantity
    let ibkr_fee := d.ibkr_fees.fee quantity
    let total_fees := kalshi_fee + ibkr_fee
    let net_profit := gross_profit - total_fees - d.slippage_buffer * quantity
    if net_profit < d.min_profit then
      none
    else
      some { symbol := symbol, side := side, kalshi_side := kalshi_side,
             kalshi_price := kalshi_price, ibkr_side := ibkr_side,
             ibkr_price := ibkr_price, total_cost := total_cost,
             gross_profit := gross_profit, kalshi_fee := kalshi_fee,
             ibkr_fee := ibkr_fee, total_fees := total_fees,
             slippage_buffer := d.slippage_buffer * quantity,
             net_profit := net_profit, timestamp_ns := timestamp,
             quantity := quantity }

/-- `ArbitrageDetector.detect`: evaluate both pairings at unit quantity and
combine them exactly as the source does
(`opp1 if opp1.net_profit > opp2.net_profit else opp2`, `opp1 or opp2`). -/
def ArbitrageDetector.detect (d : ArbitrageDetector)
    (kalshi_tick ibkr_tick : NormalizedTick) : Option ArbitrageOpportunity :=
  if kalshi_tick.symbol ≠ ibkr_tick.symbol then
    none
  else
    let timestamp := max kalshi_tick.timestamp_local ibkr_tick.timestamp_local
    let opp1 := d.check_opportunity kalshi_tick.yes_ask "YES"
      ibkr_tick.no_ask "NO" Side.BUY_YES_KALSHI_NO_IBKR kalshi_tick.symbol
      timestamp 1
    let opp2 := d.check_opportunity kalshi_tick.no_ask "NO"
      ibkr_tick.yes_ask "YES" Side.BUY_NO_KALSHI_YES_IBKR kalshi_tick.symbol
      timestamp 1
    match opp1, opp2 with
    | some o1, some o2 => if o2.net_profit < o1.net_profit then some o1 else some o2
    | some o1, none => some o1
    | none, o2 => o2

/-- **C6.**  Parity: a pairing whose leg prices sum to at least 1.00 yields
no opportunity from `_check_opportunity`, and when both pairings' sums are
at least 1.00, `detect` returns `none`. -/
theorem parity_rejected :
    (∀ (d : ArbitrageDetector) (kp : ℚ) (ks : String) (ip : ℚ) (is2 : String)
        (sd : Side) (sym : String) (ts : ℤ) (q : ℕ),
        (1 : ℚ) ≤ kp + ip →
        d.check_opportunity kp ks ip is2 sd sym ts q = none) ∧
    (∀ (d : ArbitrageDetector) (kt it : NormalizedTick),
        (1 : ℚ) ≤ kt.yes_ask + it.no_ask →
        (1 : ℚ) ≤ kt.no_ask + it.yes_ask →
        d.detect kt it = none) := by
  have key : ∀ (d : ArbitrageDetector) (kp : ℚ) (ks : String) (ip : ℚ)
      (is2 : String) (sd : Side) (sym : String) (ts : ℤ) (q : ℕ),
      (1 : ℚ) ≤ kp + ip → d.check_opportunity kp ks ip is2 sd sym ts q = none := by
    intro d kp ks ip is2 sd sym ts q h
    unfold ArbitrageDetector.check_opportunity
    dsimp only
    rw [if_pos h]
  refine ⟨key, ?_⟩
  intro d kt it h1 h2
  unfold ArbitrageDetector.detect
  dsimp only
  split
  · rfl
  · rw [key d kt.yes_ask "YES" it.no_ask "NO" Side.BUY_YES_KALSHI_NO_IBKR
        kt.symbol (max kt.timestamp_local it.timestamp_local) 1 h1,
      key d kt.no_ask "NO" it.yes_ask "YES" Side.BUY_NO_KALSHI_YES_IBKR
        kt.symbol (max kt.timestamp_local it.timestamp_local) 1 h2]

/-- Detector with the constructor defaults: `KALSHI_FEES`, `IBKR_FEES`,
slippage 0.01, `min_profit` 0.00. -/
def defaultDetector : ArbitrageDetector :=
  ⟨KALSHI_FEES, IBKR_FEES, 1 / 100, 0⟩

/-- A tick whose YES and NO asks are both 0.52/0.49, as in scenario S2. -/
def s2KalshiTick : NormalizedTick :=
  ⟨Exchange.KALSHI, "EVT", 0, 0, 52 / 100, 49 / 100, 10, 10, none, none⟩

/-- The same S2 quote on the IBKR side. -/
def s2IbkrTick : NormalizedTick :=
  ⟨Exchange.IBKR, "EVT", 0, 0, 52 / 100, 49 / 100, 10, 10, none, none⟩

/-- Witness for C6: scenario S2 (both sums 1.01) yields no opportunity. -/
theorem parity_rejected_witness :
    defaultDetector.detect s2KalshiTick s2IbkrTick = none :=
  parity_rejected.2 defaultDetector s2KalshiTick s2IbkrTick (by norm_num [s2KalshiTick, s2IbkrTick]) (by norm_num [s2KalshiTick, s2IbkrTick])

/-- A fully symmetric quote: every ask is 0.40, so both pairings have the
same `net_profit`. -/
def tieKalshiTick : NormalizedTick :=
  ⟨Exchange.KALSHI, "EVT", 0, 0, 40 / 100, 40 / 100, 10, 10, none, none⟩

/-- The IBKR half of the symmetric quote. -/
def tieIbkrTick : NormalizedTick :=
  ⟨Exchange.IBKR, "EVT", 0, 0, 40 / 100, 40 / 100, 10, 10, none, none⟩

lemma taker_fee_eval_40 : KALSHI_FEES.taker_fee (40 / 100) 1 = 2 / 100 := by
  unfold KalshiFeeSchedule.taker_fee KALSHI_FEES
  rw [ceil_cents_eval _ 2 (by push_cast ; norm_num) (by push_cast ; norm_num)]
  norm_num

lemma taker_fee_eval_45 : KALSHI_FEES.taker_fee (45 / 100) 1 = 2 / 100 := by
  unfold KalshiFeeSchedule.taker_fee KALSHI_FEES
  rw [ceil_cents_eval _ 2 (by push_cast ; norm_num) (by push_cast ; norm_num)]
  norm_num

/-- The P1 opportunity on the symmetric 0.40 quote (net profit 0.16). -/
def tieOpp1 : ArbitrageOpportunity :=
  { symbol := "EVT", side := Side.BUY_YES_KALSHI_NO_IBKR,
    kalshi_side := "YES", kalshi_price := 40 / 100, ibkr_side := "NO",
    ibkr_price := 40 / 100, total_cost := 80 / 100, gross_profit := 20 / 100,
    kalshi_fee := 2 / 100, ibkr_fee := 1 / 100, total_fees := 3 / 100,
    slippage_buffer := 1 / 100, net_profit := 16 / 100, timestamp_ns := 0,
    quantity := 1 }

/-- The P2 opportunity on the symmetric 0.40 quote (net profit 0.16). -/
def tieOpp2 : ArbitrageOpportunity :=
  { symbol := "EVT", side := Side.BUY_NO_KALSHI_YES_IBKR,
    kalshi_side := "NO", kalshi_price := 40 / 100, ibkr_side := "YES",
    ibkr_price := 40 / 100, total_cost := 80 / 100, gross_profit := 20 / 100,
    kalshi_fee := 2 / 100, ibkr_fee := 1 / 100, total_fees := 3 / 100,
    slippage_buffer := 1 / 100, net_profit := 16 / 100, timestamp_ns := 0,
    quantity := 1 }

lemma check_tie_p1 :
    defaultDetector.check_opportunity (40 / 100) "YES" (40 / 100) "NO"
      Side.BUY_YES_KALSHI_NO_IBKR "EVT" 0 1 = some tieOpp1 := by
  unfold ArbitrageDetector.check_opportunity defaultDetector
    IBKRFeeSchedule.fee IBKR_FEES
  dsimp only
  rw [if_neg (by norm_num), taker_fee_eval_40,
    if_neg (by push_cast ; norm_num)]
  simp only [tieOpp1, Option.some.injEq, ArbitrageOpportunity.mk.injEq]
  norm_num

lemma check_tie_p2 :
    defaultDetector.check_opportunity (40 / 100) "NO" (40 / 100) "YES"
      Side.BUY_NO_KALSHI_YES_IBKR "EVT" 0 1 = some tieOpp2 := by
  unfold ArbitrageDetector.check_opportunity defaultDetector
    IBKRFeeSchedule.fee IBKR_FEES
  dsimp only
  rw [if_neg (by norm_num), taker_fee_eval_40,
    if_neg (by push_cast ; norm_num)]
  simp only [tieOpp2, Option.some.injEq, ArbitrageOpportunity.mk.injEq]
  norm_num

/-- **C7, counterexample.**  With both pairings surviving at exactly equal
net profits, `detect` returns the P2 pairing (buy NO on Kalshi + YES on
IBKR), not P1 as claimed: the source tie-break
`opp1 if opp1.net_profit > opp2.net_profit else opp2` favors `opp2`. -/
theorem detect_tie_returns_p2_counterexample :
    Option.map ArbitrageOpportunity.net_profit
        (defaultDetector.check_opportunity (40 / 100) "YES" (40 / 100) "NO"
          Side.BUY_YES_KALSHI_NO_IBKR "EVT" 0 1) =
      Option.map ArbitrageOpportunity.net_profit
        (defaultDetector.check_opportunity (40 / 100) "NO" (40 / 100) "YES"
          Side.BUY_NO_KALSHI_YES_IBKR "EVT" 0 1) ∧
    Option.map ArbitrageOpportunity.side
        (defaultDetector.detect tieKalshiTick tieIbkrTick) =
      some Side.BUY_NO_KALSHI_YES_IBKR := by
  constructor
  · rw [check_tie_p1, check_tie_p2]
    rfl
  · unfold ArbitrageDetector.detect
    dsimp only [tieKalshiTick, tieIbkrTick]
    rw [if_neg (by simp), max_self, check_tie_p1, check_tie_p2]
    dsimp only
    rw [if_neg (by norm_num [tieOpp1, tieOpp2])]
    rfl

/-- **C7, amended.**  When both pairings survive, `detect` returns P1 only
when its net profit is strictly larger; otherwise — including exact ties —
it returns P2. -/
theorem detect_best_pairing (d : ArbitrageDetector)
    (kt it : NormalizedTick) (o1 o2 : ArbitrageOpportunity)
    (hsym : kt.symbol = it.symbol)
    (h1 : d.check_opportunity kt.yes_ask "YES" it.no_ask "NO"
        Side.BUY_YES_KALSHI_NO_IBKR kt.symbol
        (max kt.timestamp_local it.timestamp_local) 1 = some o1)
    (h2 : d.check_opportunity kt.no_ask "NO" it.yes_ask "YES"
        Side.BUY_NO_KALSHI_YES_IBKR kt.symbol
        (max kt.timestamp_local it.timestamp_local) 1 = some o2) :
    d.detect kt it = (if o2.net_profit < o1.net_profit then some o1 else some o2) ∧
    (o1.net_profit = o2.net_profit → d.detect kt it = some o2) := by
  have hmain : d.detect kt it
      = (if o2.net_profit < o1.net_profit then some o1 else some o2) := by
    unfold ArbitrageDetector.detect
    dsimp only
    rw [if_neg (by simp [hsym]), h1, h2]
  refine ⟨hmain, fun he => ?_⟩
  rw [hmain, if_neg (by rw [he] ; exact lt_irrefl _)]

/-- Asymmetric quotes for the C7 witness: P1 nets 0.13, P2 nets 0.01. -/
def wKalshiTick : NormalizedTick :=
  ⟨Exchange.KALSHI, "EVT2", 0, 3, 40 / 100, 45 / 100, 10, 10, none, none⟩

/-- The IBKR quote for the C7 witness. -/
def wIbkrTick : NormalizedTick :=
  ⟨Exchange.IBKR, "EVT2", 0, 5, 50 / 100, 43 / 100, 10, 10, none, none⟩

/-- The P1 opportunity produced from `wKalshiTick`/`wIbkrTick`. -/
def wOpp1 : ArbitrageOpportunity :=
  { symbol := "EVT2", side := Side.BUY_YES_KALSHI_NO_IBKR,
    kalshi_side := "YES", kalshi_price := 40 / 100, ibkr_side := "NO",
    ibkr_price := 43 / 100, total_cost := 83 / 100, gross_profit := 17 / 100,
    kalshi_fee := 2 / 100, ibkr_fee := 1 / 100, total_fees := 3 / 100,
    slippage_buffer := 1 / 100, net_profit := 13 / 100, timestamp_ns := 5,
    quantity := 1 }

/-- The P2 opportunity produced from `wKalshiTick`/`wIbkrTick`. -/
def wOpp2 : ArbitrageOpportunity :=
  { symbol := "EVT2", side := Side.BUY_NO_KALSHI_YES_IBKR,
    kalshi_side := "NO", kalshi_price := 45 / 100, ibkr_side := "YES",
    ibkr_price := 50 / 100, total_cost := 95 / 100, gross_profit := 5 / 100,
    kalshi_fee := 2 / 100, ibkr_fee := 1 / 100, total_fees := 3 / 100,
    slippage_buffer := 1 / 100, net_profit := 1 / 100, timestamp_ns := 5,
    quantity := 1 }

lemma check_w_p1 :
    defaultDetector.check_opportunity wKalshiTick.yes_ask "YES"
      wIbkrTick.no_ask "NO" Side.BUY_YES_KALSHI_NO_IBKR wKalshiTick.symbol
      (max wKalshiTick.timestamp_local wIbkrTick.timestamp_local) 1
      = some wOpp1 := by
  unfold ArbitrageDetector.check_opportunity defaultDetector
    IBKRFeeSchedule.fee IBKR_FEES
  dsimp only [wKalshiTick, wIbkrTick]
  rw [if_neg (by norm_num), taker_fee_eval_40,
    if_neg (by push_cast ; norm_num)]
  simp only [wOpp1, Option.some.injEq, ArbitrageOpportunity.mk.injEq]
  norm_num

lemma check_w_p2 :
    defaultDetector.check_opportunity wKalshiTick.no_ask "NO"
      wIbkrTick.yes_ask "YES" Side.BUY_NO_KALSHI_YES_IBKR wKalshiTick.symbol
      (max wKalshiTick.timestamp_local wIbkrTick.timestamp_local) 1
      = some wOpp2 := by
  unfold ArbitrageDetector.check_opportunity defaultDetector
    IBKRFeeSchedule.fee IBKR_FEES
  dsimp only [wKalshiTick, wIbkrTick]
  rw [if_neg (by norm_num), taker_fee_eval_45,
    if_neg (by push_cast ; norm_num)]
  simp only [wOpp2, Option.some.injEq, ArbitrageOpportunity.mk.injEq]
  norm_num

/-- Witness for C7's amended theorem on concrete asymmetric quotes. -/
theorem detect_best_pairing_witness :
    defaultDetector.detect wKalshiTick wIbkrTick =
      (if wOpp2.net_profit < wOpp1.net_profit then some wOpp1 else some wOpp2) ∧
    (wOpp1.net_profit = wOpp2.net_profit →
      defaultDetector.detect wKalshiTick wIbkrTick = some wOpp2) :=
  detect_best_pairing defaultDetector wKalshiTick wIbkrTick wOpp1 wOpp2
    rfl check_w_p1 check_w_p2

/-! ### Staleness-gated opportunity handling —
`src/hft_engine/monitor/arbitrage_monitor.py` -/

/-- `ExecutionConfig` (`src/hft_engine/config/execution_loader.py`). -/
structure ExecutionConfig where
  mode : String
  max_capital_per_market : ℚ
  max_contracts_per_event : ℕ
  min_net_profit : ℚ
  max_stale_seconds : ℚ
  deriving DecidableEq, Repr

/-- `KalshiTickCache`: latest Kalshi tick with its local receipt time. -/
structure KalshiTickCache where
  tick : Option NormalizedTick
  timestamp_ns : ℤ
  deriving DecidableEq, Repr

/-- `KalshiTickCache.is_stale`: stale when no tick was ever received, or the
age (relative to the current wall clock `now_ns`) exceeds
`max_age_seconds`. -/
def KalshiTickCache.is_stale (c : KalshiTickCache) (now_ns : ℤ)
    (max_age_seconds : ℚ) : Bool :=
  if c.tick = none ∨ c.timestamp_ns = 0 then
    true
  else
    decide (max_age_seconds * 1000000000 < ((now_ns - c.timestamp_ns : ℤ) : ℚ))

/-- `IBKRPartialTick`: half-assembled IBKR quote with a shared receipt
timestamp. -/
structure IBKRPartialTick where
  yes_ask : Option ℚ
  yes_ask_size : ℕ
  no_ask : Option ℚ
  no_ask_size : ℕ
  timestamp_ns : ℤ
  deriving DecidableEq, Repr

/-- `IBKRPartialTick.is_stale`. -/
def IBKRPartialTick.is_stale (p : IBKRPartialTick) (now_ns : ℤ)
    (max_age_seconds : ℚ) : Bool :=
  if p.timestamp_ns = 0 then
    true
  else
    decide (max_age_seconds * 1000000000 < ((now_ns - p.timestamp_ns : ℤ) : ℚ))

/-- `CapitalManager`: the two per-venue accounts plus the sizing limits. -/
structure CapitalManager where
  kalshi : AccountState
  ibkr : AccountState
  max_capital_per_market : ℚ
  max_contracts_per_event : ℕ
  deriving DecidableEq, Repr

/-- Python `int(x)` on a non-negative-or-negative rational: truncation
toward zero. -/
def pyInt (x : ℚ) : ℤ :=
  if 0 ≤ x then ⌊x⌋ else -⌊-x⌋

/-- `CapitalManager.calculate_max_quantity`.  (Python would raise
`ZeroDivisionError` on a zero price or cost pair; `ℚ` division by zero
yields 0.  The claims checked here never hit that case.) -/
def CapitalManager.calculate_max_quantity (cm : CapitalManager)
    (symbol kalshi_side : String) (kalshi_price : ℚ) (ibkr_side : String)
    (ibkr_price : ℚ) : ℤ :=
  let cost_per_pair := kalshi_price + ibkr_price
  let max_by_capital := pyInt (cm.max_capital_per_market / cost_per_pair)
  let kalshi_pos := cm.kalshi.get_position_quantity symbol kalshi_side
  let ibkr_pos := cm.ibkr.get_position_quantity symbol ibkr_side
  let max_by_position : ℤ :=
    min ((cm.max_contracts_per_event : ℤ) - kalshi_pos)
      ((cm.max_contracts_per_event : ℤ) - ibkr_pos)
  let max_by_kalshi_cash := pyInt (cm.kalshi.cash_available / kalshi_price)
  let max_by_ibkr_cash := pyInt (cm.ibkr.cash_available / ibkr_price)
  max 0 (min (min max_by_capital max_by_position)
    (min max_by_kalshi_cash max_by_ibkr_cash))

/-- `CapitalManager.validate_opportunity`.  The source interpolates the
offending amounts into its reason strings; only the reason category is
kept here. -/
def CapitalManager.validate_opportunity (cm : CapitalManager)
    (symbol kalshi_side : String) (kalshi_price : ℚ) (ibkr_side : String)
    (ibkr_price : ℚ) (quantity : ℕ) : Bool × String :=
  let total_cost := (kalshi_price + ibkr_price) * quantity
  let kalshi_cost := kalshi_price * quantity
  let ibkr_cost := ibkr_price * quantity
  if cm.max_capital_per_market < total_cost then
    (false, "Exceeds max capital per market")
  else
    let kalshi_pos := cm.kalshi.get_position_quantity symbol kalshi_side
    let ibkr_pos := cm.ibkr.get_position_quantity symbol ibkr_side
    if cm.max_contracts_per_event < kalshi_pos + quantity then
      (false, "Kalshi position limit")
    else if cm.max_contracts_per_event < ibkr_pos + quantity then
      (false, "IBKR position limit")
    else if ¬ cm.kalshi.can_afford kalshi_cost then
      (false, "Insufficient Kalshi cash")
    else if ¬ cm.ibkr.can_afford ibkr_cost then
      (false, "Insufficient IBKR cash")
    else
      (true, "OK")

/-- `ArbitrageMonitor._scale_opportunity`: recompute costs, fees, slippage
and net profit at the sized quantity. -/
def scale_opportunity (slippage_buffer : ℚ) (opp : ArbitrageOpportunity)
    (quantity : ℕ) : ArbitrageOpportunity :=
  let total_cost := (opp.kalshi_price + opp.ibkr_price) * quantity
  let gross_profit := (1 - opp.kalshi_price - opp.ibkr_price) * quantity
  let kalshi_fee := KALSHI_FEES.taker_fee opp.kalshi_price quantity
  let ibkr_fee := IBKR_FEES.fee quantity
  let total_fees := kalshi_fee + ibkr_fee
  let slippage := slippage_buffer * quantity
  let net_profit := gross_profit - total_fees - slippage
  { symbol := opp.symbol, side := opp.side, kalshi_side := opp.kalshi_side,
    kalshi_price := opp.kalshi_price, ibkr_side := opp.ibkr_side,
    ibkr_price := opp.ibkr_price, total_cost := total_cost,
    gross_profit := gross_profit, kalshi_fee := kalshi_fee,
    ibkr_fee := ibkr_fee, total_fees := total_fees,
    slippage_buffer := slippage, net_profit := net_profit,
    timestamp_ns := opp.timestamp_ns, quantity := quantity }

/-- The monitor's per-session counters. -/
structure MonitorStats where
  opportunities_detected : ℕ
  opportunities_valid : ℕ
  opportunities_stale : ℕ
  deriving DecidableEq, Repr

/-- How `_handle_opportunity` disposed of one detected opportunity.  The
constructor records at which check the function returned:
`rejected_stale` is produced by the staleness gate, before any sizing,
validation or execution code runs. -/
inductive GateOutcome where
  | rejected_stale
  | rejected_no_quantity
  | rejected_invalid (reason : String)
  | rejected_unprofitable
  | accepted_live (scaled : ArbitrageOpportunity) (quantity : ℤ)
  | accepted_logging (scaled : ArbitrageOpportunity)
  deriving DecidableEq, Repr

/-- The staleness test applied to the Kalshi cache lookup result
(`kalshi_cache is None or kalshi_cache.is_stale(max_stale)`). -/
def kalshiCacheStale (kc : Option KalshiTickCache) (now_ns : ℤ)
    (max_age_seconds : ℚ) : Bool :=
  match kc with
  | none => true
  | some c => c.is_stale now_ns max_age_seconds

/-- The staleness test applied to the IBKR partial lookup result. -/
def ibkrPartStale (p : Option IBKRPartialTick) (now_ns : ℤ)
    (max_age_seconds : ℚ) : Bool :=
  match p with
  | none => true
  | some t => t.is_stale now_ns max_age_seconds

/-- `ArbitrageMonitor._handle_opportunity`: count the detection, apply the
staleness gate, size, validate, rescale, and dispatch by mode.  The cache
lookups for `opp.symbol` and the wall clock reading are parameters. -/
def handle_opportunity (cfg : ExecutionConfig) (cm : CapitalManager)
    (slippage_buffer : ℚ) (kalshi_cache : Option KalshiTickCache)
    (ibkr_part : Option IBKRPartialTick) (now_ns : ℤ) (stats : MonitorStats)
    (opp : ArbitrageOpportunity) : GateOutcome × MonitorStats :=
  let stats1 :=
    { stats with opportunities_detected := stats.opportunities_detected + 1 }
  if kalshiCacheStale kalshi_cache now_ns cfg.max_stale_seconds then
    (GateOutcome.rejected_stale,
      { stats1 with opportunities_stale := stats1.opportunities_stale + 1 })
  else if ibkrPartStale ibkr_part now_ns cfg.max_stale_seconds then
    (GateOutcome.rejected_stale,
      { stats1 with opportunities_stale := stats1.opportunities_stale + 1 })
  else
    let max_qty := cm.calculate_max_quantity opp.symbol opp.kalshi_side
      opp.kalshi_price opp.ibkr_side opp.ibkr_price
    if max_qty ≤ 0 then
      (GateOutcome.rejected_no_quantity, stats1)
    else
      let v := cm.validate_opportunity opp.symbol opp.kalshi_side
        opp.kalshi_price opp.ibkr_side opp.ibkr_price max_qty.toNat
      if v.1 = false then
        (GateOutcome.rejected_invalid v.2, stats1)
      else
        let scaled := scale_opportunity slippage_buffer opp max_qty.toNat
        if scaled.net_profit ≤ 0 then
          (GateOutcome.rejected_unprofitable, stats1)
        else
          let stats2 :=
            { stats1 with opportunities_valid := stats1.opportunities_valid + 1 }
          if cfg.mode = "live" then
            (GateOutcome.accepted_live scaled max_qty, stats2)
          else
            (GateOutcome.accepted_logging scaled, stats2)

/-- **C5.**  If the most recent tick for the symbol from either venue is
older than `max_stale_seconds` of wall time (or was never received), the
opportunity is rejected by the staleness gate — before sizing, validation
or execution — and `opportunities_stale` is incremented by exactly one
(and `opportunities_valid` is untouched). -/
theorem staleness_gate_rejects (cfg : ExecutionConfig) (cm : CapitalManager)
    (slip : ℚ) (kc : Option KalshiTickCache) (ip : Option IBKRPartialTick)
    (now_ns : ℤ) (stats : MonitorStats) (opp : ArbitrageOpportunity)
    (h : kalshiCacheStale kc now_ns cfg.max_stale_seconds = true ∨
        ibkrPartStale ip now_ns cfg.max_stale_seconds = true) :
    (handle_opportunity cfg cm slip kc ip now_ns stats opp).1
        = GateOutcome.rejected_stale ∧
    (handle_opportunity cfg cm slip kc ip now_ns stats opp).2.opportunities_stale
        = stats.opportunities_stale + 1 ∧
    (handle_opportunity cfg cm slip kc ip now_ns stats opp).2.opportunities_valid
        = stats.opportunities_valid := by
  by_cases hk : kalshiCacheStale kc now_ns cfg.max_stale_seconds = true
  · simp [handle_opportunity, hk]
  · rcases h with h | h
    · exact absurd h hk
    · simp [handle_opportunity, hk, h]

/-- A concrete execution configuration for witnesses (logging mode,
`max_stale_seconds` 5). -/
def cfg0 : ExecutionConfig := ⟨"logging", 50, 100, 0, 5⟩

/-- A concrete capital manager for witnesses. -/
def cm0 : CapitalManager := ⟨⟨100, 0, []⟩, ⟨100, 0, []⟩, 50, 100⟩

/-- Witness for C5: with no Kalshi tick ever received, the gate rejects
the opportunity as stale and bumps the stale counter. -/
theorem staleness_gate_rejects_witness :
    (handle_opportunity cfg0 cm0 (1 / 100) none none 0 ⟨0, 0, 0⟩ tieOpp1).1
        = GateOutcome.rejected_stale ∧
    (handle_opportunity cfg0 cm0 (1 / 100) none none 0
        ⟨0, 0, 0⟩ tieOpp1).2.opportunities_stale
        = MonitorStats.opportunities_stale ⟨0, 0, 0⟩ + 1 ∧
    (handle_opportunity cfg0 cm0 (1 / 100) none none 0
        ⟨0, 0, 0⟩ tieOpp1).2.opportunities_valid
        = MonitorStats.opportunities_valid ⟨0, 0, 0⟩ :=
  staleness_gate_rejects cfg0 cm0 (1 / 100) none none 0 ⟨0, 0, 0⟩ tieOpp1
    (Or.inl rfl)

/-! ### Bounded event queue — `src/core/event_bus.py` -/

/-- `BackpressurePolicy` enum. -/
inductive BackpressurePolicy where
  | BLOCK
  | DROP_OLDEST
  | DROP_NEWEST
  | RAISE
  deriving DecidableEq, Repr

/-- Outcome of one `put` call: accepted, dropped (returns `False`), or the
`RAISE`-policy `QueueFull` exception. -/
inductive PutResult where
  | queued
  | dropped
  | raised
  deriving DecidableEq, Repr

/-- `BoundedEventQueue` state: FIFO contents plus the statistics counters.
Enqueue timestamps (used only for wait-time statistics) are omitted. -/
structure QueueState (T : Type) where
  items : List T
  max_size : ℕ
  policy : BackpressurePolicy
  total_enqueued : ℕ
  total_dequeued : ℕ
  total_dropped : ℕ
  deriving DecidableEq, Repr

/-- `asyncio.Queue.full()`: with `maxsize ≤ 0` the queue is never full. -/
def QueueState.full {T : Type} (q : QueueState T) : Bool :=
  decide (0 < q.max_size ∧ q.max_size ≤ q.items.length)

/-- `BoundedEventQueue.put`, as one sequential step.  Under `BLOCK` with
the queue full, no consumer can run inside the same step, so the
`asyncio.wait_for` around the blocking put can only time out: the item is
dropped and the producer informed — a blocking put that eventually
succeeds is the composition of `get` steps followed by a non-full `put`.
The `DROP_OLDEST` branch mirrors the source exactly, including the
`QueueEmpty` guard and the re-check of fullness before `put_nowait`
(both unreachable in sequential runs). -/
def QueueState.put {T : Type} (q : QueueState T) (item : T) :
    PutResult × QueueState T :=
  if q.full then
    match q.policy with
    | .BLOCK =>
      (.dropped, { q with total_dropped := q.total_dropped + 1 })
    | .DROP_OLDEST =>
      match q.items with
      | [] =>
        -- `QueueEmpty`: nothing evicted; the immediate `put_nowait` then
        -- re-raises `QueueFull` on the still-full queue.  (Unreachable:
        -- a full queue with positive capacity is non-empty.)
        if q.full then
          (.dropped, { q with total_dropped := q.total_dropped + 1 })
        else
          (.queued, { q with items := q.items ++ [item],
                             total_enqueued := q.total_enqueued + 1 })
      | _ :: rest =>
        -- Oldest item evicted (dropped counter bumped), then `put_nowait`
        -- re-checks fullness — the "race" rejection is dead sequentially.
        if ({ q with items := rest,
                     total_dropped := q.total_dropped + 1 } : QueueState T).full then
          (.dropped, { q with items := rest,
                              total_dropped := q.total_dropped + 2 })
        else
          (.queued, { q with items := rest ++ [item],
                             total_enqueued := q.total_enqueued + 1,
                             total_dropped := q.total_dropped + 1 })
    | .DROP_NEWEST =>
      (.dropped, { q with total_dropped := q.total_dropped + 1 })
    | .RAISE =>
      (.raised, q)
  else
    (.queued, { q with items := q.items ++ [item],
                       total_enqueued := q.total_enqueued + 1 })

/-- `BoundedEventQueue.get` (also covering `get_nowait`): on an empty
queue the consumer would suspend, so the sequential step is a no-op. -/
def QueueState.get {T : Type} (q : QueueState T) : Option T × QueueState T :=
  match q.items with
  | [] => (none, q)
  | x :: rest =>
    (some x, { q with items := rest, total_dequeued := q.total_dequeued + 1 })

/-- A freshly constructed queue: empty, all counters zero. -/
def mkQueue (T : Type) (max_size : ℕ) (policy : BackpressurePolicy) :
    QueueState T :=
  ⟨[], max_size, policy, 0, 0, 0⟩

/-- One producer/consumer step against the queue. -/
inductive QueueOp (T : Type) where
  | put (item : T)
  | get
  deriving DecidableEq, Repr

/-- Run a sequence of queue operations. -/
def runQueueOps {T : Type} (q : QueueState T) : List (QueueOp T) → QueueState T
  | [] => q
  | .put x :: rest => runQueueOps ((q.put x).2) rest
  | .get :: rest => runQueueOps (q.get).2 rest

/-- Inductive invariant of a queue run: capacity and policy are fixed, the
size is bounded, and the counters satisfy the policy-dependent
conservation identity. -/
def queueInv {T : Type} (cap : ℕ) (policy : BackpressurePolicy)
    (q : QueueState T) : Prop :=
  q.max_size = cap ∧ q.policy = policy ∧ q.items.length ≤ cap ∧
  ((policy = .DROP_OLDEST ∨ policy = .RAISE) →
    q.total_enqueued = q.total_dequeued + q.total_dropped + q.items.length) ∧
  ((policy = .BLOCK ∨ policy = .DROP_NEWEST) →
    q.total_enqueued = q.total_dequeued + q.items.length)

lemma queueInv_put {T : Type} {cap : ℕ} {policy : BackpressurePolicy}
    {q : QueueState T} (x : T) (hcap : 1 ≤ cap)
    (h : queueInv cap policy q) : queueInv cap policy (q.put x).2 := by
  obtain ⟨hmax, hpol, hlen, hco, hcb⟩ := h
  unfold QueueState.put
  by_cases hfull : q.full = true
  · rw [if_pos hfull, hpol]
    have hfull2 : 0 < q.max_size ∧ q.max_size ≤ q.items.length := by
      simpa [QueueState.full] using hfull
    have hlencap : q.items.length = cap := by omega
    cases policy <;> dsimp only
    -- BLOCK
    · refine ⟨hmax, rfl, hlen, ?_, ?_⟩
      · rintro (hcase | hcase) <;> exact BackpressurePolicy.noConfusion hcase
      · intro hcase
        simpa using hcb hcase
    -- DROP_OLDEST
    · cases hitems : q.items with
      | nil =>
        rw [hitems] at hlencap
        simp at hlencap
        omega
      | cons hd tl =>
        have htl : tl.length + 1 = cap := by
          have := congrArg List.length hitems
          simp at this
          omega
        have hq1full :
            ¬ (({ q with items := tl,
                         policy := BackpressurePolicy.DROP_OLDEST,
                         total_dropped := q.total_dropped + 1 } : QueueState T).full
              = true) := by
          simp only [QueueState.full, decide_eq_true_eq]
          intro hc
          rw [hmax] at hc
          omega
        dsimp only
        rw [if_neg hq1full]
        refine ⟨hmax, rfl, ?_, ?_, ?_⟩
        · simp
          omega
        · intro hcase
          have := hco hcase
          rw [hitems] at this
          simp at this ⊢
          omega
        · rintro (hcase | hcase) <;> exact BackpressurePolicy.noConfusion hcase
    -- DROP_NEWEST
    · refine ⟨hmax, rfl, hlen, ?_, ?_⟩
      · rintro (hcase | hcase) <;> exact BackpressurePolicy.noConfusion hcase
      · intro hcase
        simpa using hcb hcase
    -- RAISE
    · exact ⟨hmax, hpol, hlen, hco, hcb⟩
  · rw [if_neg hfull]
    have hnotfull : ¬ (0 < q.max_size ∧ q.max_size ≤ q.items.length) := by
      simpa [QueueState.full] using hfull
    have hlt : q.items.length < cap := by
      rw [hmax] at hnotfull
      omega
    refine ⟨hmax, hpol, ?_, ?_, ?_⟩
    · simp
      omega
    · intro hcase
      have := hco hcase
      simp
      omega
    · intro hcase
      have := hcb hcase
      simp
      omega

lemma queueInv_get {T : Type} {cap : ℕ} {policy : BackpressurePolicy}
    {q : QueueState T} (h : queueInv cap policy q) :
    queueInv cap policy (q.get).2 := by
  obtain ⟨hmax, hpol, hlen, hco, hcb⟩ := h
  unfold QueueState.get
  cases hitems : q.items with
  | nil => exact ⟨hmax, hpol, hlen, hco, hcb⟩
  | cons hd tl =>
    have : q.items.length = tl.length + 1 := by rw [hitems]; simp
    refine ⟨hmax, hpol, by simpa using by omega, ?_, ?_⟩
    · intro hcase
      have := hco hcase
      simp
      omega
    · intro hcase
      have := hcb hcase
      simp
      omega

lemma queueInv_run {T : Type} {cap : ℕ} {policy : BackpressurePolicy}
    (hcap : 1 ≤ cap) (ops : List (QueueOp T)) :
    ∀ q : QueueState T, queueInv cap policy q →
      queueInv cap policy (runQueueOps q ops) := by
  induction ops with
  | nil => intro q h; exact h
  | cons op rest ih =>
    intro q h
    cases op with
    | put x => exact ih _ (queueInv_put x hcap h)
    | get => exact ih _ (queueInv_get h)

/-- **C9, counterexample.**  Under the `DROP_NEWEST` policy the identity
`total_enqueued - total_dequeued - total_dropped = current size` fails:
on a capacity-1 queue, two puts leave `enqueued = 1`, `dequeued = 0`,
`dropped = 1`, `size = 1`, and `1 - 0 - 1 ≠ 1` — the dropped incoming
item was never counted as enqueued. -/
theorem queue_conservation_counterexample :
    (runQueueOps (mkQueue ℕ 1 .DROP_NEWEST)
        [QueueOp.put 7, QueueOp.put 8]).total_enqueued = 1 ∧
    (runQueueOps (mkQueue ℕ 1 .DROP_NEWEST)
        [QueueOp.put 7, QueueOp.put 8]).total_dequeued = 0 ∧
    (runQueueOps (mkQueue ℕ 1 .DROP_NEWEST)
        [QueueOp.put 7, QueueOp.put 8]).total_dropped = 1 ∧
    (runQueueOps (mkQueue ℕ 1 .DROP_NEWEST)
        [QueueOp.put 7, QueueOp.put 8]).items.length = 1 ∧
    ¬ ((runQueueOps (mkQueue ℕ 1 .DROP_NEWEST)
          [QueueOp.put 7, QueueOp.put 8]).total_enqueued
        = (runQueueOps (mkQueue ℕ 1 .DROP_NEWEST)
            [QueueOp.put 7, QueueOp.put 8]).total_dequeued
          + (runQueueOps (mkQueue ℕ 1 .DROP_NEWEST)
              [QueueOp.put 7, QueueOp.put 8]).total_dropped
          + (runQueueOps (mkQueue ℕ 1 .DROP_NEWEST)
              [QueueOp.put 7, QueueOp.put 8]).items.length) := by
  refine ⟨rfl, rfl, rfl, rfl, ?_⟩
  decide

/-- **C9, amended.**  For every positive capacity, policy, and sequence of
put/get steps from a fresh queue: the size never exceeds the capacity;
under `DROP_OLDEST` and `RAISE` the claimed identity
`enqueued = dequeued + dropped + size` holds (every drop evicts a
previously enqueued item); under `BLOCK` and `DROP_NEWEST` the identity
holds with `dropped` excluded (`enqueued = dequeued + size`), because
those policies drop the incoming, never-enqueued item. -/
theorem queue_conservation_amended (T : Type) (cap : ℕ)
    (policy : BackpressurePolicy) (ops : List (QueueOp T)) (hcap : 1 ≤ cap) :
    (runQueueOps (mkQueue T cap policy) ops).items.length ≤ cap ∧
    ((policy = .DROP_OLDEST ∨ policy = .RAISE) →
      (runQueueOps (mkQueue T cap policy) ops).total_enqueued
        = (runQueueOps (mkQueue T cap policy) ops).total_dequeued
          + (runQueueOps (mkQueue T cap policy) ops).total_dropped
          + (runQueueOps (mkQueue T cap policy) ops).items.length) ∧
    ((policy = .BLOCK ∨ policy = .DROP_NEWEST) →
      (runQueueOps (mkQueue T cap policy) ops).total_enqueued
        = (runQueueOps (mkQueue T cap policy) ops).total_dequeued
          + (runQueueOps (mkQueue T cap policy) ops).items.length) := by
  have hbase : queueInv cap policy (mkQueue T cap policy) := by
    refine ⟨rfl, rfl, by simp [mkQueue], ?_, ?_⟩ <;> intro _ <;> simp [mkQueue]
  have h := queueInv_run hcap ops (mkQueue T cap policy) hbase
  exact ⟨h.2.2.1, h.2.2.2.1, h.2.2.2.2⟩

/-- Witness for C9's amended theorem: scenario S6 — capacity 3,
`DROP_OLDEST`, five puts; checks the conservation identity on the result. -/
theorem queue_conservation_amended_witness :
    (runQueueOps (mkQueue ℕ 3 .DROP_OLDEST)
        [QueueOp.put 1, QueueOp.put 2, QueueOp.put 3, QueueOp.put 4,
          QueueOp.put 5]).items.length ≤ 3 ∧
    ((BackpressurePolicy.DROP_OLDEST = .DROP_OLDEST ∨
        BackpressurePolicy.DROP_OLDEST = .RAISE) →
      (runQueueOps (mkQueue ℕ 3 .DROP_OLDEST)
          [QueueOp.put 1, QueueOp.put 2, QueueOp.put 3, QueueOp.put 4,
            QueueOp.put 5]).total_enqueued
        = (runQueueOps (mkQueue ℕ 3 .DROP_OLDEST)
            [QueueOp.put 1, QueueOp.put 2, QueueOp.put 3, QueueOp.put 4,
              QueueOp.put 5]).total_dequeued
          + (runQueueOps (mkQueue ℕ 3 .DROP_OLDEST)
              [QueueOp.put 1, QueueOp.put 2, QueueOp.put 3, QueueOp.put 4,
                QueueOp.put 5]).total_dropped
          + (runQueueOps (mkQueue ℕ 3 .DROP_OLDEST)
              [QueueOp.put 1, QueueOp.put 2, QueueOp.put 3, QueueOp.put 4,
                QueueOp.put 5]).items.length) ∧
    ((BackpressurePolicy.DROP_OLDEST = .BLOCK ∨
        BackpressurePolicy.DROP_OLDEST = .DROP_NEWEST) →
      (runQueueOps (mkQueue ℕ 3 .DROP_OLDEST)
          [QueueOp.put 1, QueueOp.put 2, QueueOp.put 3, QueueOp.put 4,
            QueueOp.put 5]).total_enqueued
        = (runQueueOps (mkQueue ℕ 3 .DROP_OLDEST)
            [QueueOp.put 1, QueueOp.put 2, QueueOp.put 3, QueueOp.put 4,
              QueueOp.put 5]).total_dequeued
          + (runQueueOps (mkQueue ℕ 3 .DROP_OLDEST)
              [QueueOp.put 1, QueueOp.put 2, QueueOp.put 3, QueueOp.put 4,
                QueueOp.put 5]).items.length) :=
  queue_conservation_amended ℕ 3 .DROP_OLDEST
    [QueueOp.put 1, QueueOp.put 2, QueueOp.put 3, QueueOp.put 4,
      QueueOp.put 5] (by norm_num)

/-! ### Gateways' order models — `src/hft_engine/gateways/kalshi_rest.py`,
`src/hft_engine/gateways/ibkr_client.py` -/

/-- Kalshi `OrderSide` enum. -/
inductive OrderSide where
  | yes
  | no
  deriving DecidableEq, Repr

/-- The `.value` string of an `OrderSide`. -/
def OrderSide.value : OrderSide → String
  | .yes => "yes"
  | .no => "no"

/-- Kalshi `OrderStatus` enum. -/
inductive KalshiOrderStatus where
  | RESTING
  | PENDING
  | OPEN
  | FILLED
  | EXECUTED
  | CANCELED
  | CANCELLED
  | EXPIRED
  deriving DecidableEq, Repr

/-- The `.value` string of a Kalshi order status. -/
def KalshiOrderStatus.value : KalshiOrderStatus → String
  | .RESTING => "resting"
  | .PENDING => "pending"
  | .OPEN => "open"
  | .FILLED => "filled"
  | .EXECUTED => "executed"
  | .CANCELED => "canceled"
  | .CANCELLED => "cancelled"
  | .EXPIRED => "expired"

/-- `KalshiOrder` response, restricted to the fields the executor reads
(`order_id`, `status`, counts, `price`). -/
structure KalshiOrder where
  order_id : String
  status : KalshiOrderStatus
  initial_count : ℕ
  remaining_count : ℕ
  fill_count : ℕ
  price : ℚ
  deriving DecidableEq, Repr

/-- `KalshiOrder.is_filled`: `remaining_count == 0 and fill_count > 0`. -/
def KalshiOrder.is_filled (o : KalshiOrder) : Bool :=
  decide (o.remaining_count = 0 ∧ 0 < o.fill_count)

/-- `KalshiOrder.is_open`: resting, or has remaining quantity. -/
def KalshiOrder.is_open (o : KalshiOrder) : Bool :=
  decide (o.status = KalshiOrderStatus.RESTING ∨ 0 < o.remaining_count)

/-- `IBKROrderStatus` enum. -/
inductive IBKROrderStatus where
  | PENDING
  | SUBMITTED
  | FILLED
  | CANCELLED
  | INACTIVE
  deriving DecidableEq, Repr

/-- The `.value` string of an IBKR order status. -/
def IBKROrderStatus.value : IBKROrderStatus → String
  | .PENDING => "PendingSubmit"
  | .SUBMITTED => "Submitted"
  | .FILLED => "Filled"
  | .CANCELLED => "Cancelled"
  | .INACTIVE => "Inactive"

/-- `IBKROrder`, restricted to the fields the executor reads. -/
structure IBKROrder where
  order_id : ℤ
  con_id : ℤ
  quantity : ℕ
  limit_price : ℚ
  status : IBKROrderStatus
  filled_quantity : ℕ
  avg_fill_price : Option ℚ
  deriving DecidableEq, Repr

/-- `IBKROrder.is_filled`: `status == FILLED`. -/
def IBKROrder.is_filled (o : IBKROrder) : Bool :=
  decide (o.status = IBKROrderStatus.FILLED)

/-- `IBKROrder.is_open`: pending or submitted. -/
def IBKROrder.is_open (o : IBKROrder) : Bool :=
  decide (o.status = IBKROrderStatus.PENDING ∨
    o.status = IBKROrderStatus.SUBMITTED)

/-! ### Order executor — `src/hft_engine/core/executor.py`

Awaited gateway calls are oracles: an `Except String X` is the call's
result, `.error e` standing for a raised exception with message `e`.
Each leg helper also returns the list of order-placement attempts it made
(its calls to `place_order`), so the theorems can speak about what was
submitted. -/

/-- One `place_order` call, with the arguments the executor passed. -/
inductive OrderRequest where
  | kalshiOrder (ticker : String) (side : OrderSide) (count : ℕ)
      (price_cents : ℤ)
  | ibkrOrder (con_id : ℤ) (quantity : ℕ) (limit_price : ℚ)
  deriving DecidableEq, Repr

/-- The dict returned by `_execute_kalshi`, with the `.get` defaults of
the caller applied (`filled` → `False`, `fill_quantity` → `0`, absent
keys → `None`). -/
structure KalshiLegOutcome where
  order_id : Option String
  filled : Bool
  fill_quantity : ℕ
  fill_price : Option ℚ
  error : Option String
  deriving DecidableEq, Repr

/-- The dict returned by `_execute_ibkr`, with the caller's defaults. -/
structure IBKRLegOutcome where
  order_id : Option ℤ
  filled : Bool
  fill_quantity : ℕ
  fill_price : Option ℚ
  error : Option String
  deriving DecidableEq, Repr

/-- Network responses consumed by `_execute_kalshi`: the `place_order`
result, the successive `get_order` poll results obtained before the
deadline (the list ending means the deadline elapsed), and the
`cancel_order` result used on timeout. -/
structure KalshiLegOracle where
  place : Except String KalshiOrder
  polls : List (Except String KalshiOrder)
  cancel : Except String KalshiOrder
  deriving Repr

/-- The poll loop of `_execute_kalshi`: return on fill or on a closed
order, otherwise keep polling; at the deadline cancel and report a
timeout carrying the last seen `fill_count`. -/
def kalshiPoll (cancel : Except String KalshiOrder) :
    KalshiOrder → List (Except String KalshiOrder) → KalshiLegOutcome
  | last, [] =>
    match cancel with
    | .error e => ⟨none, false, 0, none, some e⟩
    | .ok _ =>
      ⟨some last.order_id, false, last.fill_count, none,
        some "Timeout waiting for fill"⟩
  | _, .error e :: _ => ⟨none, false, 0, none, some e⟩
  | _, .ok o :: rest =>
    if o.is_filled then
      ⟨some o.order_id, true, o.fill_count, some o.price, none⟩
    else if ¬ o.is_open then
      ⟨some o.order_id, false, 0, none, some ("Order " ++ o.status.value)⟩
    else
      kalshiPoll cancel o rest

/-- `OrderExecutor._execute_kalshi`: place a limit order (side mapped from
the string, price converted to cents with Python `int`), then poll. -/
def executeKalshi (ko : KalshiLegOracle) (ticker : String) (side : String)
    (quantity : ℕ) (price : ℚ) : KalshiLegOutcome × List OrderRequest :=
  let kalshi_side := if side = "YES" then OrderSide.yes else OrderSide.no
  let price_cents := pyInt (price * 100)
  let req := OrderRequest.kalshiOrder ticker kalshi_side quantity price_cents
  let outcome :=
    match ko.place with
    | .error e => ⟨none, false, 0, none, some e⟩
    | .ok o0 => kalshiPoll ko.cancel o0 ko.polls
  (outcome, [req])

/-- Network responses consumed by `_execute_ibkr`: `place_order`,
`wait_for_fill`, and the `cancel_order` issued when the final state is
still open. -/
structure IBKRLegOracle where
  place : Except String IBKROrder
  wait : Except String IBKROrder
  cancel : Except String IBKROrder
  deriving Repr

/-- `OrderExecutor._execute_ibkr`. -/
def executeIbkr (ibo : IBKRLegOracle) (con_id : ℤ) (quantity : ℕ)
    (price : ℚ) : IBKRLegOutcome × List OrderRequest :=
  let req := OrderRequest.ibkrOrder con_id quantity price
  let outcome :=
    match ibo.place with
    | .error e => ⟨none, false, 0, none, some e⟩
    | .ok _ =>
      match ibo.wait with
      | .error e => ⟨none, false, 0, none, some e⟩
      | .ok o =>
        if o.is_filled then
          ⟨some o.order_id, true, o.filled_quantity, o.avg_fill_price, none⟩
        else if o.is_open then
          match ibo.cancel with
          | .error e => ⟨none, false, 0, none, some e⟩
          | .ok _ =>
            ⟨some o.order_id, false, o.filled_quantity, none,
              some ("Order " ++ o.status.value)⟩
        else
          ⟨some o.order_id, false, o.filled_quantity, none,
            some ("Order " ++ o.status.value)⟩
  (outcome, [req])

/-- The `"manual intervention"` marker of `_rollback_kalshi`. -/
def manualMarker : String := "MANUAL INTERVENTION REQUIRED"

/-- Result of `_rollback_kalshi` (`success` flag and `details` string). -/
structure RollbackOutcome where
  success : Bool
  details : String
  deriving DecidableEq, Repr

/-- Network responses consumed by `_rollback_kalshi`: the hedge
`place_order` and the `get_order` after the bounded wait. -/
structure RollbackOracle where
  place : Except String KalshiOrder
  get : Except String KalshiOrder
  deriving Repr

/-- `OrderExecutor._rollback_kalshi`: buy the opposite side at 99 cents,
wait briefly, and report; any failure carries the manual-intervention
marker.  (String concatenation is grouped so that the marker is the final
operand; the strings are identical to the source's f-strings.) -/
def rollbackKalshi (ro : RollbackOracle) (ticker : String) (side : String)
    (quantity : ℕ) : RollbackOutcome × List OrderRequest :=
  let opposite_side := if side = "YES" then OrderSide.no else OrderSide.yes
  let req := OrderRequest.kalshiOrder ticker opposite_side quantity 99
  let outcome :=
    match ro.place with
    | .error e =>
      ⟨false, ("Rollback failed: " ++ e ++ " - ") ++ manualMarker⟩
    | .ok _ =>
      match ro.get with
      | .error e =>
        ⟨false, ("Rollback failed: " ++ e ++ " - ") ++ manualMarker⟩
      | .ok o =>
        if o.is_filled then
          ⟨true, "Hedged with " ++ toString quantity ++ " " ++
            opposite_side.value ++ " @ $" ++ toString o.price⟩
        else
          ⟨false, ("Hedge order " ++ o.status.value ++ " - ") ++ manualMarker⟩
  (outcome, [req])

/-- `ExecutionResult` dataclass (the `timestamp` string is omitted). -/
structure ExecutionResult where
  success : Bool
  symbol : String
  quantity : ℕ
  kalshi_filled : Bool
  kalshi_order_id : Option String
  kalshi_side : String
  kalshi_limit_price : ℚ
  kalshi_fill_price : Option ℚ
  kalshi_fill_quantity : ℕ
  ibkr_filled : Bool
  ibkr_order_id : Option ℤ
  ibkr_side : String
  ibkr_con_id : ℤ
  ibkr_limit_price : ℚ
  ibkr_fill_price : Option ℚ
  ibkr_fill_quantity : ℕ
  total_cost : ℚ
  expected_payout : ℚ
  actual_fees : ℚ
  net_profit : ℚ
  error : Option String
  rolled_back : Bool
  rollback_details : Option String
  deriving DecidableEq, Repr

/-- One entry of the symbol-mapping config
(`src/hft_engine/config/loader.py`). -/
structure SymbolMapping where
  unified_symbol : String
  kalshi_ticker : String
  ibkr_yes_conid : ℤ
  ibkr_no_conid : ℤ
  deriving DecidableEq, Repr

/-- Python `Decimal` truthiness applied by
`result.fill_price or fallback` and the fee-price selection: a `None` or
**zero** fill price falls back. -/
def priceOrElse (p : Option ℚ) (fallback : ℚ) : ℚ :=
  match p with
  | some v => if v = 0 then fallback else v
  | none => fallback

/-- `fill_price * fill_quantity if fill_price else fallback` — Python
truthiness again: `None` or zero price selects the fallback cost. -/
def actualCost (p : Option ℚ) (qty : ℕ) (fallback : ℚ) : ℚ :=
  match p with
  | some v => if v = 0 then fallback else v * qty
  | none => fallback

/-- `OrderExecutor.execute`.  Mutations of `self._capital` become the
returned `CapitalManager`; the third component is the list of
`place_order` calls made.  All awaited-call exceptions are caught inside
the helpers (each returns a `filled=False` dict), so the outer
`try/except` cleanup of the source is unreachable here; in Python an
`add_position` with a zero fill quantity would divide by zero and reach
it, while `ℚ` division totalizes that case (no claim touches it). -/
def execute (cap : CapitalManager) (opp : ArbitrageOpportunity)
    (quantity : ℕ) (mapping : Option SymbolMapping) (ko : KalshiLegOracle)
    (ibo : IBKRLegOracle) (ro : RollbackOracle) :
    ExecutionResult × CapitalManager × List OrderRequest :=
  let result0 : ExecutionResult :=
    { success := false, symbol := opp.symbol, quantity := quantity,
      kalshi_filled := false, kalshi_order_id := none,
      kalshi_side := opp.kalshi_side, kalshi_limit_price := opp.kalshi_price,
      kalshi_fill_price := none, kalshi_fill_quantity := 0,
      ibkr_filled := false, ibkr_order_id := none,
      ibkr_side := opp.ibkr_side, ibkr_con_id := 0,
      ibkr_limit_price := opp.ibkr_price, ibkr_fill_price := none,
      ibkr_fill_quantity := 0, total_cost := 0,
      expected_payout := (quantity : ℚ), actual_fees := 0, net_profit := 0,
      error := none, rolled_back := false, rollback_details := none }
  match mapping with
  | none =>
    ({ result0 with error := some ("Unknown symbol: " ++ opp.symbol) },
      cap, [])
  | some m =>
    let con_id :=
      if opp.ibkr_side = "YES" then m.ibkr_yes_conid else m.ibkr_no_conid
    let kalshi_cost := opp.kalshi_price * quantity
    let ibkr_cost := opp.ibkr_price * quantity
    let r1 := { result0 with ibkr_con_id := con_id,
                             total_cost := kalshi_cost + ibkr_cost }
    let resK := cap.kalshi.reserve kalshi_cost
    if ¬ resK.1 then
      ({ r1 with error := some "Insufficient Kalshi capital" },
        { cap with kalshi := resK.2 }, [])
    else
      let resI := cap.ibkr.reserve ibkr_cost
      if ¬ resI.1 then
        ({ r1 with error := some "Insufficient IBKR capital" },
          { cap with kalshi := resK.2.release kalshi_cost, ibkr := resI.2 },
          [])
      else
        let capR := { cap with kalshi := resK.2, ibkr := resI.2 }
        let legK := executeKalshi ko m.kalshi_ticker opp.kalshi_side
          quantity opp.kalshi_price
        let klo := legK.1
        let r2 := { r1 with kalshi_order_id := klo.order_id,
                            kalshi_filled := klo.filled,
                            kalshi_fill_quantity := klo.fill_quantity,
                            kalshi_fill_price := klo.fill_price }
        if ¬ klo.filled then
          ({ r2 with error := some (klo.error.getD "Kalshi order not filled") },
            { capR with kalshi := capR.kalshi.release kalshi_cost,
                        ibkr := capR.ibkr.release ibkr_cost },
            legK.2)
        else
          let legI := executeIbkr ibo con_id quantity opp.ibkr_price
          let ilo := legI.1
          let r3 := { r2 with ibkr_order_id := ilo.order_id,
                              ibkr_filled := ilo.filled,
                              ibkr_fill_quantity := ilo.fill_quantity,
                              ibkr_fill_price := ilo.fill_price }
          if ¬ ilo.filled then
            let capI := { capR with ibkr := capR.ibkr.release ibkr_cost }
            let rb := rollbackKalshi ro m.kalshi_ticker opp.kalshi_side
              r3.kalshi_fill_quantity
            ({ r3 with rolled_back := true,
                       rollback_details := some rb.1.details,
                       error := some (ilo.error.getD "IBKR order not filled") },
              capI, legK.2 ++ legI.2 ++ rb.2)
          else
            let actual_kalshi_cost :=
              actualCost r3.kalshi_fill_price r3.kalshi_fill_quantity
                kalshi_cost
            let actual_ibkr_cost :=
              actualCost r3.ibkr_fill_price r3.ibkr_fill_quantity ibkr_cost
            let capS :=
              { capR with
                kalshi :=
                  (capR.kalshi.confirm_spend kalshi_cost).add_position
                    opp.symbol opp.kalshi_side r3.kalshi_fill_quantity
                    actual_kalshi_cost,
                ibkr :=
                  (capR.ibkr.confirm_spend ibkr_cost).add_position
                    opp.symbol opp.ibkr_side r3.ibkr_fill_quantity
                    actual_ibkr_cost }
            let kalshi_fee := KALSHI_FEES.taker_fee
              (priceOrElse r3.kalshi_fill_price opp.kalshi_price)
              r3.kalshi_fill_quantity
            let ibkr_fee := IBKR_FEES.fee r3.ibkr_fill_quantity
            let actual_fees := kalshi_fee + ibkr_fee
            let total_cost := actual_kalshi_cost + actual_ibkr_cost
            ({ r3 with actual_fees := actual_fees, total_cost := total_cost,
                       net_profit :=
                         r3.expected_payout - total_cost - actual_fees,
                       success := true },
              capS, legK.2 ++ legI.2)

lemma release_after_reserve (s : AccountState) (c : ℚ) :
    AccountState.release
      { s with cash_available := s.cash_available - c,
               cash_reserved := s.cash_reserved + c } c = s := by
  cases s with
  | mk a r p =>
    unfold AccountState.release
    simp only [AccountState.mk.injEq]
    refine ⟨by ring, by ring, trivial⟩

/-- Behaviour of `execute` on the rolled-back path: the mapping resolves,
both reservations succeed, the Kalshi leg reports filled and the IBKR leg
does not.  The result tuple is computed in full: the returned
`ExecutionResult` (rolled back, carrying the rollback details), the
capital state (Kalshi reservation still held, IBKR account restored), and
the three order-placement attempts (primary Kalshi leg for `quantity` at
the cent price, IBKR leg for `quantity`, hedge for the *filled* Kalshi
quantity at 99 cents on the opposite side). -/
lemma execute_rolled_back_eq (cap : CapitalManager)
    (opp : ArbitrageOpportunity) (quantity : ℕ) (m : SymbolMapping)
    (ko : KalshiLegOracle) (ibo : IBKRLegOracle) (ro : RollbackOracle)
    (conid : ℤ) (klo : KalshiLegOutcome) (ilo : IBKRLegOutcome)
    (hcon : (if opp.ibkr_side = "YES" then m.ibkr_yes_conid
        else m.ibkr_no_conid) = conid)
    (hk : cap.kalshi.can_afford (opp.kalshi_price * quantity) = true)
    (hi : cap.ibkr.can_afford (opp.ibkr_price * quantity) = true)
    (hklo : (executeKalshi ko m.kalshi_ticker opp.kalshi_side quantity
        opp.kalshi_price).1 = klo)
    (hilo : (executeIbkr ibo conid quantity opp.ibkr_price).1 = ilo)
    (hfill : klo.filled = true)
    (hnofill : ilo.filled = false) :
    execute cap opp quantity (some m) ko ibo ro =
      ({ success := false, symbol := opp.symbol, quantity := quantity,
         kalshi_filled := true, kalshi_order_id := klo.order_id,
         kalshi_side := opp.kalshi_side,
         kalshi_limit_price := opp.kalshi_price,
         kalshi_fill_price := klo.fill_price,
         kalshi_fill_quantity := klo.fill_quantity,
         ibkr_filled := false, ibkr_order_id := ilo.order_id,
         ibkr_side := opp.ibkr_side, ibkr_con_id := conid,
         ibkr_limit_price := opp.ibkr_price,
         ibkr_fill_price := ilo.fill_price,
         ibkr_fill_quantity := ilo.fill_quantity,
         total_cost := opp.kalshi_price * quantity +
           opp.ibkr_price * quantity,
         expected_payout := (quantity : ℚ), actual_fees := 0,
         net_profit := 0,
         error := some (ilo.error.getD "IBKR order not filled"),
         rolled_back := true,
         rollback_details := some (rollbackKalshi ro m.kalshi_ticker
           opp.kalshi_side klo.fill_quantity).1.details },
       { cap with kalshi :=
           { cap.kalshi with
             cash_available :=
               cap.kalshi.cash_available - opp.kalshi_price * quantity,
             cash_reserved :=
               cap.kalshi.cash_reserved + opp.kalshi_price * quantity } },
       [OrderRequest.kalshiOrder m.kalshi_ticker
           (if opp.kalshi_side = "YES" then OrderSide.yes else OrderSide.no)
           quantity (pyInt (opp.kalshi_price * 100)),
         OrderRequest.ibkrOrder conid quantity opp.ibkr_price,
         OrderRequest.kalshiOrder m.kalshi_ticker
           (if opp.kalshi_side = "YES" then OrderSide.no else OrderSide.yes)
           klo.fill_quantity 99]) := by
  have hkc : cap.kalshi.reserve (opp.kalshi_price * quantity) =
      (true, { cap.kalshi with
        cash_available := cap.kalshi.cash_available -
          opp.kalshi_price * quantity,
        cash_reserved := cap.kalshi.cash_reserved +
          opp.kalshi_price * quantity }) := by
    unfold AccountState.reserve
    rw [if_pos hk]
  have hic : cap.ibkr.reserve (opp.ibkr_price * quantity) =
      (true, { cap.ibkr with
        cash_available := cap.ibkr.cash_available -
          opp.ibkr_price * quantity,
        cash_reserved := cap.ibkr.cash_reserved +
          opp.ibkr_price * quantity }) := by
    unfold AccountState.reserve
    rw [if_pos hi]
  have htt : ¬ ¬ (true = true) := by simp
  have hft : ¬ (false = true) := by simp
  unfold execute
  dsimp only
  rw [hcon, hkc, hic]
  dsimp only
  rw [if_neg htt, if_neg htt, hklo, hilo, hfill, hnofill, if_neg htt,
    if_pos hft, release_after_reserve cap.ibkr (opp.ibkr_price * quantity)]
  rfl

/-- Behaviour of `execute` on the success path: mapping resolves, both
reservations succeed, both legs report filled.  Both spends are
confirmed, both positions added, fees and net profit computed from the
actual fills, and exactly the two leg orders were placed. -/
lemma execute_success_eq (cap : CapitalManager)
    (opp : ArbitrageOpportunity) (quantity : ℕ) (m : SymbolMapping)
    (ko : KalshiLegOracle) (ibo : IBKRLegOracle) (ro : RollbackOracle)
    (conid : ℤ) (klo : KalshiLegOutcome) (ilo : IBKRLegOutcome)
    (hcon : (if opp.ibkr_side = "YES" then m.ibkr_yes_conid
        else m.ibkr_no_conid) = conid)
    (hk : cap.kalshi.can_afford (opp.kalshi_price * quantity) = true)
    (hi : cap.ibkr.can_afford (opp.ibkr_price * quantity) = true)
    (hklo : (executeKalshi ko m.kalshi_ticker opp.kalshi_side quantity
        opp.kalshi_price).1 = klo)
    (hilo : (executeIbkr ibo conid quantity opp.ibkr_price).1 = ilo)
    (hfill : klo.filled = true)
    (hfillI : ilo.filled = true) :
    execute cap opp quantity (some m) ko ibo ro =
      ({ success := true, symbol := opp.symbol, quantity := quantity,
         kalshi_filled := true, kalshi_order_id := klo.order_id,
         kalshi_side := opp.kalshi_side,
         kalshi_limit_price := opp.kalshi_price,
         kalshi_fill_price := klo.fill_price,
         kalshi_fill_quantity := klo.fill_quantity,
         ibkr_filled := true, ibkr_order_id := ilo.order_id,
         ibkr_side := opp.ibkr_side, ibkr_con_id := conid,
         ibkr_limit_price := opp.ibkr_price,
         ibkr_fill_price := ilo.fill_price,
         ibkr_fill_quantity := ilo.fill_quantity,
         total_cost :=
           actualCost klo.fill_price klo.fill_quantity
             (opp.kalshi_price * quantity) +
           actualCost ilo.fill_price ilo.fill_quantity
             (opp.ibkr_price * quantity),
         expected_payout := (quantity : ℚ),
         actual_fees :=
           KALSHI_FEES.taker_fee (priceOrElse klo.fill_price opp.kalshi_price)
             klo.fill_quantity + IBKR_FEES.fee ilo.fill_quantity,
         net_profit :=
           (quantity : ℚ) -
             (actualCost klo.fill_price klo.fill_quantity
               (opp.kalshi_price * quantity) +
             actualCost ilo.fill_price ilo.fill_quantity
               (opp.ibkr_price * quantity)) -
             (KALSHI_FEES.taker_fee
               (priceOrElse klo.fill_price opp.kalshi_price)
               klo.fill_quantity + IBKR_FEES.fee ilo.fill_quantity),
         error := none, rolled_back := false, rollback_details := none },
       { cap with
         kalshi :=
           AccountState.add_position
             (AccountState.confirm_spend
               { cap.kalshi with
                 cash_available :=
                   cap.kalshi.cash_available - opp.kalshi_price * quantity,
                 cash_reserved :=
                   cap.kalshi.cash_reserved + opp.kalshi_price * quantity }
               (opp.kalshi_price * quantity))
             opp.symbol opp.kalshi_side klo.fill_quantity
             (actualCost klo.fill_price klo.fill_quantity
               (opp.kalshi_price * quantity)),
         ibkr :=
           AccountState.add_position
             (AccountState.confirm_spend
               { cap.ibkr with
                 cash_available :=
                   cap.ibkr.cash_available - opp.ibkr_price * quantity,
                 cash_reserved :=
                   cap.ibkr.cash_reserved + opp.ibkr_price * quantity }
               (opp.ibkr_price * quantity))
             opp.symbol opp.ibkr_side ilo.fill_quantity
             (actualCost ilo.fill_price ilo.fill_quantity
               (opp.ibkr_price * quantity)) },
       [OrderRequest.kalshiOrder m.kalshi_ticker
           (if opp.kalshi_side = "YES" then OrderSide.yes else OrderSide.no)
           quantity (pyInt (opp.kalshi_price * 100)),
         OrderRequest.ibkrOrder conid quantity opp.ibkr_price]) := by
  have hkc : cap.kalshi.reserve (opp.kalshi_price * quantity) =
      (true, { cap.kalshi with
        cash_available := cap.kalshi.cash_available -
          opp.kalshi_price * quantity,
        cash_reserved := cap.kalshi.cash_reserved +
          opp.kalshi_price * quantity }) := by
    unfold AccountState.reserve
    rw [if_pos hk]
  have hic : cap.ibkr.reserve (opp.ibkr_price * quantity) =
      (true, { cap.ibkr with
        cash_available := cap.ibkr.cash_available -
          opp.ibkr_price * quantity,
        cash_reserved := cap.ibkr.cash_reserved +
          opp.ibkr_price * quantity }) := by
    unfold AccountState.reserve
    rw [if_pos hi]
  have htt : ¬ ¬ (true = true) := by simp
  unfold execute
  dsimp only
  rw [hcon, hkc, hic]
  dsimp only
  rw [if_neg htt, if_neg htt, hklo, hilo, hfill, hfillI, if_neg htt,
    if_neg htt]
  rfl

lemma kalshiPoll_filled_pos (cancel : Except String KalshiOrder) :
    ∀ (last : KalshiOrder) (polls : List (Except String KalshiOrder)),
      (kalshiPoll cancel last polls).filled = true →
      0 < (kalshiPoll cancel last polls).fill_quantity := by
  intro last polls
  induction polls generalizing last with
  | nil =>
    intro h
    unfold kalshiPoll at h ⊢
    cases cancel <;> simp at h
  | cons p rest ih =>
    intro h
    unfold kalshiPoll at h ⊢
    cases p with
    | error e => simp at h
    | ok o =>
      dsimp only at h ⊢
      by_cases hf : o.is_filled = true
      · rw [if_pos hf] at h ⊢
        have hpos : o.remaining_count = 0 ∧ 0 < o.fill_count := by
          simpa [KalshiOrder.is_filled] using hf
        exact hpos.2
      · rw [if_neg hf] at h ⊢
        by_cases ho : o.is_open = true
        · rw [if_neg (not_not_intro ho)] at h ⊢
          exact ih o h
        · rw [if_pos ho] at h
          simp at h

lemma executeKalshi_filled_pos (ko : KalshiLegOracle) (t s : String)
    (q : ℕ) (p : ℚ) (h : (executeKalshi ko t s q p).1.filled = true) :
    0 < (executeKalshi ko t s q p).1.fill_quantity := by
  unfold executeKalshi at h ⊢
  dsimp only at h ⊢
  cases hpl : ko.place with
  | error e =>
    rw [hpl] at h
    simp at h
  | ok o0 =>
    rw [hpl] at h
    dsimp only at h ⊢
    exact kalshiPoll_filled_pos ko.cancel o0 ko.polls h

/-- The IBKR `place_order` calls among a list of placement attempts. -/
def ibkrRequests (tr : List OrderRequest) : List OrderRequest :=
  tr.filter fun r =>
    match r with
    | .ibkrOrder _ _ _ => true
    | _ => false

/-- A symbol mapping for the concrete executor runs. -/
def exMapping : SymbolMapping := ⟨"EVT2", "KXEVT", 111, 222⟩

/-- The placed primary Kalshi order: 5 contracts, all resting. -/
def exKalshiPlaced : KalshiOrder :=
  ⟨"ORD1", KalshiOrderStatus.RESTING, 5, 5, 0, 40 / 100⟩

/-- A poll response reporting the order closed with only 3 of the 5
contracts filled (`remaining_count = 0`, `fill_count = 3`), which
`is_filled` reports as filled. -/
def exKalshiFilled3 : KalshiOrder :=
  ⟨"ORD1", KalshiOrderStatus.EXECUTED, 5, 0, 3, 40 / 100⟩

/-- Kalshi leg responses: order placed, then reported filled at 3. -/
def exKalshiOracle : KalshiLegOracle :=
  ⟨Except.ok exKalshiPlaced, [Except.ok exKalshiFilled3],
    Except.ok exKalshiPlaced⟩

/-- The IBKR order comes back cancelled, nothing filled. -/
def exIbkrRejected : IBKROrder :=
  ⟨9, 222, 5, 43 / 100, IBKROrderStatus.CANCELLED, 0, none⟩

/-- IBKR leg responses: placed, then reported cancelled. -/
def exIbkrOracle : IBKRLegOracle :=
  ⟨Except.ok exIbkrRejected, Except.ok exIbkrRejected,
    Except.ok exIbkrRejected⟩

/-- The hedge order fills completely. -/
def exHedgeFilled : KalshiOrder :=
  ⟨"ORD2", KalshiOrderStatus.EXECUTED, 3, 0, 3, 99 / 100⟩

/-- Hedge responses: placed, then reported filled. -/
def exRollbackOracle : RollbackOracle :=
  ⟨Except.ok exHedgeFilled, Except.ok exHedgeFilled⟩

/-- The concrete executor run used by the C1 counterexample: requested
quantity 5, Kalshi reports filled with `fill_count = 3`, IBKR rejected. -/
def exRun : ExecutionResult × CapitalManager × List OrderRequest :=
  execute cm0 wOpp1 5 (some exMapping) exKalshiOracle exIbkrOracle
    exRollbackOracle

/-- The Kalshi leg outcome of the concrete run. -/
def exKlo : KalshiLegOutcome := ⟨some "ORD1", true, 3, some (40 / 100), none⟩

/-- The IBKR leg outcome of the concrete run. -/
def exIlo : IBKRLegOutcome := ⟨some 9, false, 0, none, some "Order Cancelled"⟩

/-- **C1, counterexample.**  The Kalshi leg reports filled with a fill
quantity of 3 (out of 5 requested), yet the IBKR leg is submitted for the
requested quantity 5, not for `result.kalshi_fill_quantity`: the source
passes `quantity=quantity` to `_execute_ibkr`. -/
theorem legB_quantity_counterexample :
    exRun.1.kalshi_filled = true ∧
    exRun.1.kalshi_fill_quantity = 3 ∧
    ibkrRequests exRun.2.2 = [OrderRequest.ibkrOrder 222 5 (43 / 100)] ∧
    (3 : ℕ) ≠ 5 := by
  unfold exRun
  rw [execute_rolled_back_eq cm0 wOpp1 5 exMapping exKalshiOracle
    exIbkrOracle exRollbackOracle 222 exKlo exIlo rfl
    (by simp only [cm0, wOpp1, AccountState.can_afford,
      decide_eq_true_eq] ; norm_num)
    (by simp only [cm0, wOpp1, AccountState.can_afford,
      decide_eq_true_eq] ; norm_num)
    rfl rfl rfl rfl]
  exact ⟨rfl, rfl, rfl, by decide⟩

/-- **C1, amended.**  After the Kalshi leg reports filled, the IBKR order
is submitted for the *originally requested* quantity, not for the
actually-filled quantity (exactly one IBKR placement occurs, with
`quantity`); and the claimed zero-fill branch does not exist in the code —
nor can its premise arise, since `is_filled` requires `fill_count > 0`,
so a filled Kalshi leg always reports a positive fill quantity. -/
theorem legB_submitted_requested_quantity (cap : CapitalManager)
    (opp : ArbitrageOpportunity) (quantity : ℕ) (m : SymbolMapping)
    (ko : KalshiLegOracle) (ibo : IBKRLegOracle) (ro : RollbackOracle)
    (conid : ℤ) (klo : KalshiLegOutcome)
    (hcon : (if opp.ibkr_side = "YES" then m.ibkr_yes_conid
        else m.ibkr_no_conid) = conid)
    (hk : cap.kalshi.can_afford (opp.kalshi_price * quantity) = true)
    (hi : cap.ibkr.can_afford (opp.ibkr_price * quantity) = true)
    (hklo : (executeKalshi ko m.kalshi_ticker opp.kalshi_side quantity
        opp.kalshi_price).1 = klo)
    (hfill : klo.filled = true) :
    ibkrRequests (execute cap opp quantity (some m) ko ibo ro).2.2
      = [OrderRequest.ibkrOrder conid quantity opp.ibkr_price] ∧
    0 < (execute cap opp quantity (some m) ko ibo ro).1.kalshi_fill_quantity := by
  have hpos : 0 < klo.fill_quantity := by
    rw [← hklo]
    exact executeKalshi_filled_pos ko m.kalshi_ticker opp.kalshi_side
      quantity opp.kalshi_price (by rw [hklo] ; exact hfill)
  cases hmode : (executeIbkr ibo conid quantity opp.ibkr_price).1.filled with
  | false =>
    rw [execute_rolled_back_eq cap opp quantity m ko ibo ro conid klo
      (executeIbkr ibo conid quantity opp.ibkr_price).1 hcon hk hi hklo rfl
      hfill hmode]
    constructor
    · simp [ibkrRequests]
    · exact hpos
  | true =>
    rw [execute_success_eq cap opp quantity m ko ibo ro conid klo
      (executeIbkr ibo conid quantity opp.ibkr_price).1 hcon hk hi hklo rfl
      hfill hmode]
    constructor
    · simp [ibkrRequests]
    · exact hpos

/-- Witness for C1's amended theorem on the concrete run. -/
theorem legB_submitted_requested_quantity_witness :
    ibkrRequests (execute cm0 wOpp1 5 (some exMapping) exKalshiOracle
        exIbkrOracle exRollbackOracle).2.2
      = [OrderRequest.ibkrOrder 222 5 (wOpp1.ibkr_price)] ∧
    0 < (execute cm0 wOpp1 5 (some exMapping) exKalshiOracle exIbkrOracle
        exRollbackOracle).1.kalshi_fill_quantity :=
  legB_submitted_requested_quantity cm0 wOpp1 5 exMapping exKalshiOracle
    exIbkrOracle exRollbackOracle 222 exKlo rfl
    (by simp only [cm0, wOpp1, AccountState.can_afford,
      decide_eq_true_eq] ; norm_num)
    (by simp only [cm0, wOpp1, AccountState.can_afford,
      decide_eq_true_eq] ; norm_num)
    rfl rfl

lemma rollback_failed_marker (ro : RollbackOracle) (t s : String) (q : ℕ)
    (h : (rollbackKalshi ro t s q).1.success = false) :
    ∃ pre, (rollbackKalshi ro t s q).1.details = pre ++ manualMarker := by
  unfold rollbackKalshi at h ⊢
  dsimp only at h ⊢
  cases hp : ro.place with
  | error e =>
    exact ⟨"Rollback failed: " ++ e ++ " - ", rfl⟩
  | ok o1 =>
    rw [hp] at h
    dsimp only at h
    cases hg : ro.get with
    | error e =>
      exact ⟨"Rollback failed: " ++ e ++ " - ", rfl⟩
    | ok o =>
      rw [hg] at h
      dsimp only at h ⊢
      by_cases hf : o.is_filled = true
      · rw [if_pos hf] at h
        simp at h
      · rw [if_neg hf]
        exact ⟨"Hedge order " ++ o.status.value ++ " - ", rfl⟩

/-- **C2.**  Kalshi leg filled, IBKR leg not filled (any non-fill terminal
state, timeout, or exception raised during submit/wait — all of which the
helpers turn into a `filled=False` outcome): the IBKR reservation is
released (the IBKR account is restored to its pre-execution state),
exactly one hedging order attempt is placed on Kalshi — the third and
last placement of the run — on the side opposite the filled Kalshi leg,
for the filled Kalshi quantity, at a limit price of 99 cents; the result
is returned (the function is total) with `rolled_back = true` and the
rollback details recorded; and a hedge that does not fill (or whose
submission raised) is reported in `rollback_details` ending with the
`MANUAL INTERVENTION REQUIRED` marker. -/
theorem rollback_hedge_behavior (cap : CapitalManager)
    (opp : ArbitrageOpportunity) (quantity : ℕ) (m : SymbolMapping)
    (ko : KalshiLegOracle) (ibo : IBKRLegOracle) (ro : RollbackOracle)
    (conid : ℤ) (klo : KalshiLegOutcome) (ilo : IBKRLegOutcome)
    (hcon : (if opp.ibkr_side = "YES" then m.ibkr_yes_conid
        else m.ibkr_no_conid) = conid)
    (hk : cap.kalshi.can_afford (opp.kalshi_price * quantity) = true)
    (hi : cap.ibkr.can_afford (opp.ibkr_price * quantity) = true)
    (hklo : (executeKalshi ko m.kalshi_ticker opp.kalshi_side quantity
        opp.kalshi_price).1 = klo)
    (hilo : (executeIbkr ibo conid quantity opp.ibkr_price).1 = ilo)
    (hfill : klo.filled = true)
    (hnofill : ilo.filled = false) :
    (execute cap opp quantity (some m) ko ibo ro).1.rolled_back = true ∧
    (execute cap opp quantity (some m) ko ibo ro).2.1.ibkr = cap.ibkr ∧
    (execute cap opp quantity (some m) ko ibo ro).1.kalshi_fill_quantity
      = klo.fill_quantity ∧
    (execute cap opp quantity (some m) ko ibo ro).2.2 =
      [OrderRequest.kalshiOrder m.kalshi_ticker
          (if opp.kalshi_side = "YES" then OrderSide.yes else OrderSide.no)
          quantity (pyInt (opp.kalshi_price * 100)),
        OrderRequest.ibkrOrder conid quantity opp.ibkr_price,
        OrderRequest.kalshiOrder m.kalshi_ticker
          (if opp.kalshi_side = "YES" then OrderSide.no else OrderSide.yes)
          klo.fill_quantity 99] ∧
    (execute cap opp quantity (some m) ko ibo ro).1.rollback_details =
      some (rollbackKalshi ro m.kalshi_ticker opp.kalshi_side
        klo.fill_quantity).1.details ∧
    ((rollbackKalshi ro m.kalshi_ticker opp.kalshi_side
        klo.fill_quantity).1.success = false →
      ∃ pre, (execute cap opp quantity (some m) ko ibo ro).1.rollback_details
        = some (pre ++ manualMarker)) := by
  rw [execute_rolled_back_eq cap opp quantity m ko ibo ro conid klo ilo
    hcon hk hi hklo hilo hfill hnofill]
  refine ⟨rfl, rfl, rfl, rfl, rfl, fun hfail => ?_⟩
  obtain ⟨pre, hpre⟩ := rollback_failed_marker ro m.kalshi_ticker
    opp.kalshi_side klo.fill_quantity hfail
  exact ⟨pre, by rw [hpre]⟩

/-- Witness for C2: the concrete rolled-back run (scenario of S5 shape). -/
theorem rollback_hedge_behavior_witness :
    (execute cm0 wOpp1 5 (some exMapping) exKalshiOracle exIbkrOracle
        exRollbackOracle).1.rolled_back = true ∧
    (execute cm0 wOpp1 5 (some exMapping) exKalshiOracle exIbkrOracle
        exRollbackOracle).2.1.ibkr = cm0.ibkr ∧
    (execute cm0 wOpp1 5 (some exMapping) exKalshiOracle exIbkrOracle
        exRollbackOracle).1.kalshi_fill_quantity = exKlo.fill_quantity ∧
    (execute cm0 wOpp1 5 (some exMapping) exKalshiOracle exIbkrOracle
        exRollbackOracle).2.2 =
      [OrderRequest.kalshiOrder exMapping.kalshi_ticker
          (if wOpp1.kalshi_side = "YES" then OrderSide.yes else OrderSide.no)
          5 (pyInt (wOpp1.kalshi_price * 100)),
        OrderRequest.ibkrOrder 222 5 wOpp1.ibkr_price,
        OrderRequest.kalshiOrder exMapping.kalshi_ticker
          (if wOpp1.kalshi_side = "YES" then OrderSide.no else OrderSide.yes)
          exKlo.fill_quantity 99] ∧
    (execute cm0 wOpp1 5 (some exMapping) exKalshiOracle exIbkrOracle
        exRollbackOracle).1.rollback_details =
      some (rollbackKalshi exRollbackOracle exMapping.kalshi_ticker
        wOpp1.kalshi_side exKlo.fill_quantity).1.details ∧
    ((rollbackKalshi exRollbackOracle exMapping.kalshi_ticker
        wOpp1.kalshi_side exKlo.fill_quantity).1.success = false →
      ∃ pre, (execute cm0 wOpp1 5 (some exMapping) exKalshiOracle
          exIbkrOracle exRollbackOracle).1.rollback_details
        = some (pre ++ manualMarker)) :=
  rollback_hedge_behavior cm0 wOpp1 5 exMapping exKalshiOracle exIbkrOracle
    exRollbackOracle 222 exKlo exIlo rfl
    (by simp only [cm0, wOpp1, AccountState.can_afford,
      decide_eq_true_eq] ; norm_num)
    (by simp only [cm0, wOpp1, AccountState.can_afford,
      decide_eq_true_eq] ; norm_num)
    rfl rfl rfl rfl

/-- **C10.**  On the rolled-back path only the IBKR reservation is
released: the IBKR account is exactly its pre-execution state, while the
Kalshi account keeps the reservation — `cash_reserved` is higher and
`cash_available` lower than before the execution by exactly
`kalshi_price * quantity`, and positions are untouched. -/
theorem rolledback_frame_effect (cap : CapitalManager)
    (opp : ArbitrageOpportunity) (quantity : ℕ) (m : SymbolMapping)
    (ko : KalshiLegOracle) (ibo : IBKRLegOracle) (ro : RollbackOracle)
    (conid : ℤ) (klo : KalshiLegOutcome) (ilo : IBKRLegOutcome)
    (hcon : (if opp.ibkr_side = "YES" then m.ibkr_yes_conid
        else m.ibkr_no_conid) = conid)
    (hk : cap.kalshi.can_afford (opp.kalshi_price * quantity) = true)
    (hi : cap.ibkr.can_afford (opp.ibkr_price * quantity) = true)
    (hklo : (executeKalshi ko m.kalshi_ticker opp.kalshi_side quantity
        opp.kalshi_price).1 = klo)
    (hilo : (executeIbkr ibo conid quantity opp.ibkr_price).1 = ilo)
    (hfill : klo.filled = true)
    (hnofill : ilo.filled = false) :
    (execute cap opp quantity (some m) ko ibo ro).1.rolled_back = true ∧
    (execute cap opp quantity (some m) ko ibo ro).2.1.kalshi.cash_reserved
      = cap.kalshi.cash_reserved + opp.kalshi_price * quantity ∧
    (execute cap opp quantity (some m) ko ibo ro).2.1.kalshi.cash_available
      = cap.kalshi.cash_available - opp.kalshi_price * quantity ∧
    (execute cap opp quantity (some m) ko ibo ro).2.1.kalshi.positions
      = cap.kalshi.positions ∧
    (execute cap opp quantity (some m) ko ibo ro).2.1.ibkr = cap.ibkr := by
  rw [execute_rolled_back_eq cap opp quantity m ko ibo ro conid klo ilo
    hcon hk hi hklo hilo hfill hnofill]
  exact ⟨rfl, rfl, rfl, rfl, rfl⟩

/-- Witness for C10 on the concrete rolled-back run. -/
theorem rolledback_frame_effect_witness :
    (execute cm0 wOpp1 5 (some exMapping) exKalshiOracle exIbkrOracle
        exRollbackOracle).1.rolled_back = true ∧
    (execute cm0 wOpp1 5 (some exMapping) exKalshiOracle exIbkrOracle
        exRollbackOracle).2.1.kalshi.cash_reserved
      = cm0.kalshi.cash_reserved + wOpp1.kalshi_price * 5 ∧
    (execute cm0 wOpp1 5 (some exMapping) exKalshiOracle exIbkrOracle
        exRollbackOracle).2.1.kalshi.cash_available
      = cm0.kalshi.cash_available - wOpp1.kalshi_price * 5 ∧
    (execute cm0 wOpp1 5 (some exMapping) exKalshiOracle exIbkrOracle
        exRollbackOracle).2.1.kalshi.positions = cm0.kalshi.positions ∧
    (execute cm0 wOpp1 5 (some exMapping) exKalshiOracle exIbkrOracle
        exRollbackOracle).2.1.ibkr = cm0.ibkr :=
  rolledback_frame_effect cm0 wOpp1 5 exMapping exKalshiOracle exIbkrOracle
    exRollbackOracle 222 exKlo exIlo rfl
    (by simp only [cm0, wOpp1, AccountState.can_afford,
      decide_eq_true_eq] ; norm_num)
    (by simp only [cm0, wOpp1, AccountState.can_afford,
      decide_eq_true_eq] ; norm_num)
    rfl rfl rfl rfl

end HFTLite
